import Mathlib

/-!
# terraform-provider-administration: mapper, client and resource operations

A shallow embedding of `internal/client` and `internal/provider`.

Conventions of the embedding:

* Go `string` is `String`; a Go `error` is the `String` returned by its `Error()` method.
* Go `int64` and `int` are the integer they denote (`Int`).  The provider is modelled on a
  64-bit target, where `int` and `int64` have the same range, so the conversions `int(x)` and
  `int64(x)` keep the value.
* Go `float64` values are only copied by the provider; they are carried by their bit pattern.
* A Go slice is either nil or a non-nil sequence of elements (`Slice`).
* A framework value (`types.String`, `types.Int64`, `types.Float64`) is null, unknown or known.
* The network is a server function answering each request from the history of earlier
  requests; every request handed to `HTTPClient.Do` is appended to the `World`.
* `encoding/json`, `net/url` and the clock are inputs of the operations that use them.
-/

namespace Administration

/-! ## Go and framework values -/

/-- A `float64`, carried by its IEEE-754 bit pattern. -/
structure GoFloat64 where
  bits : Nat
deriving DecidableEq, Repr

/-- A Go slice: `nil` is the nil slice, `mk xs` a non-nil slice holding `xs`. -/
inductive Slice (α : Type) where
  | nil : Slice α
  | mk (xs : List α) : Slice α
deriving DecidableEq, Repr

/-- The elements visited by `for _, item := range s`, in order; a nil slice has none. -/
def Slice.elems {α : Type} : Slice α → List α
  | Slice.nil => []
  | Slice.mk xs => xs

/-- Whether the slice is nil (`s == nil`). -/
def Slice.isNil {α : Type} : Slice α → Bool
  | Slice.nil => true
  | Slice.mk _ => false

/-- The slice `append(s, x)`: never nil, the elements of `s` followed by `x`. -/
def Slice.append {α : Type} (s : Slice α) (x : α) : Slice α :=
  Slice.mk (s.elems ++ [x])

/-- A value of the plugin framework (`types.String`, `types.Int64`, `types.Float64`):
null, unknown, or a known value. -/
inductive TfValue (α : Type) where
  | null : TfValue α
  | unknown : TfValue α
  | known (v : α) : TfValue α
deriving DecidableEq, Repr

abbrev TfString := TfValue String
abbrev TfInt64 := TfValue Int
abbrev TfFloat64 := TfValue GoFloat64

def TfValue.IsNull {α : Type} : TfValue α → Bool
  | TfValue.null => true
  | _ => false

def TfValue.IsUnknown {α : Type} : TfValue α → Bool
  | TfValue.unknown => true
  | _ => false

/-- Whether the value is known (neither null nor unknown). -/
def TfValue.isKnown {α : Type} : TfValue α → Bool
  | TfValue.known _ => true
  | _ => false

/-- The method `ValueString()`: the known value, `""` when null or unknown. -/
def ValueString : TfString → String
  | TfValue.known s => s
  | _ => ""

/-- The method `ValueInt64()`: the known value, `0` when null or unknown. -/
def ValueInt64 : TfInt64 → Int
  | TfValue.known v => v
  | _ => 0

/-- The method `ValueFloat64()`: the known value, `0.0` when null or unknown. -/
def ValueFloat64 : TfFloat64 → GoFloat64
  | TfValue.known v => v
  | _ => ⟨0⟩

def StringValue (s : String) : TfString := TfValue.known s
def Int64Value (v : Int) : TfInt64 := TfValue.known v
def Float64Value (v : GoFloat64) : TfFloat64 := TfValue.known v

/-- The conversion `int(x)` of an `int64` on a 64-bit target. -/
def toInt (v : Int) : Int := v

/-- The conversion `int64(x)` of an `int` on a 64-bit target. -/
def toInt64 (v : Int) : Int := v

/-- The function `strconv.Itoa`: the decimal text of an integer, `-` in front when negative. -/
def Itoa (v : Int) : String :=
  match v with
  | Int.ofNat n => Nat.repr n
  | Int.negSucc n => "-" ++ Nat.repr (n + 1)

/-! ## The clock -/

/-- A wall-clock reading as `time.Now()` gives it, broken down in the local zone. -/
structure Time where
  weekday : Fin 7
  day : Nat
  month : Fin 12
  year : Nat
  hour : Nat
  minute : Nat
  second : Nat
  zone : String
deriving DecidableEq, Repr

def weekdayName (d : Fin 7) : String :=
  ["Sunday", "Monday", "Tuesday", "Wednesday", "Thursday", "Friday", "Saturday"].getD d.val ""

def monthAbbrev (m : Fin 12) : String :=
  ["Jan", "Feb", "Mar", "Apr", "May", "Jun", "Jul", "Aug", "Sep", "Oct", "Nov", "Dec"].getD m.val ""

/-- A number printed on at least two digits. -/
def pad2 (n : Nat) : String :=
  if n < 10 then "0" ++ Nat.repr n else Nat.repr n

/-- The layout `time.RFC850`, `"Monday, 02-Jan-06 15:04:05 MST"`, applied to a time. -/
def formatRFC850 (t : Time) : String :=
  weekdayName t.weekday ++ ", " ++ pad2 t.day ++ "-" ++ monthAbbrev t.month ++ "-" ++
    pad2 (t.year % 100) ++ " " ++ pad2 t.hour ++ ":" ++ pad2 t.minute ++ ":" ++
    pad2 t.second ++ " " ++ t.zone

/-! ## `internal/client/models.go` -/

structure LimitsItem where
  Name : String
  Value : Int
deriving DecidableEq, Repr

structure PrincingItem where
  SubscribeForYear : Int
  MonthlyPrice : GoFloat64
  MonthlyPriceCurrency : String
deriving DecidableEq, Repr

structure Plan where
  ID : Int
  Name : String
  Features : Slice String
  Limits : Slice LimitsItem
  Pricing : Slice PrincingItem
deriving DecidableEq, Repr

/-! ## `internal/provider/plan_resource.go`: models and mapper -/

structure limitItemModel where
  Name : TfString
  Value : TfInt64
deriving DecidableEq, Repr

structure pricingItemModel where
  SubscribeForYear : TfInt64
  MonthlyPrice : TfFloat64
  MonthlyPriceCurrency : TfString
deriving DecidableEq, Repr

structure planResourceModel where
  ID : TfString
  Name : TfString
  LastUpdated : TfString
  Features : Slice TfString
  Limits : Slice limitItemModel
  Pricing : Slice pricingItemModel
deriving DecidableEq, Repr

/-- The zero value of `client.Plan` with the given name: `client.Plan{Name: name}`. -/
def Plan.named (name : String) : Plan :=
  { ID := 0, Name := name, Features := Slice.nil, Limits := Slice.nil, Pricing := Slice.nil }

def PlanModelToPlan (plan : planResourceModel) : Plan :=
  let newPlan := Plan.named (ValueString plan.Name)
  let features : Slice String :=
    plan.Features.elems.foldl (fun acc item => acc.append (ValueString item)) (Slice.mk [])
  let limits : Slice LimitsItem :=
    plan.Limits.elems.foldl
      (fun acc item =>
        acc.append { Name := ValueString item.Name, Value := toInt (ValueInt64 item.Value) })
      (Slice.mk [])
  let pricings : Slice PrincingItem :=
    plan.Pricing.elems.foldl
      (fun acc item =>
        acc.append
          { SubscribeForYear := toInt (ValueInt64 item.SubscribeForYear),
            MonthlyPrice := ValueFloat64 item.MonthlyPrice,
            MonthlyPriceCurrency := ValueString item.MonthlyPriceCurrency })
      (Slice.mk [])
  { newPlan with Features := features, Limits := limits, Pricing := pricings }

/-- The procedure `PlanToPlanModel(plan, model)`: `model` after the call, `now` being the
reading of `time.Now()`. -/
def PlanToPlanModel (now : Time) (plan : Plan) (model : planResourceModel) : planResourceModel :=
  let model := { model with Name := StringValue plan.Name }
  let model := { model with Features := Slice.mk [] }
  let model := plan.Features.elems.foldl
    (fun (m : planResourceModel) ftrItem =>
      { m with Features := m.Features.append (StringValue ftrItem) }) model
  let model := { model with Limits := Slice.mk [] }
  let model := plan.Limits.elems.foldl
    (fun (m : planResourceModel) limitItem =>
      let item : limitItemModel :=
        { Name := StringValue limitItem.Name,
          Value := Int64Value (toInt64 limitItem.Value) }
      { m with Limits := m.Limits.append item }) model
  let model := { model with Pricing := Slice.mk [] }
  let model := plan.Pricing.elems.foldl
    (fun (m : planResourceModel) pricingItem =>
      let item : pricingItemModel :=
        { SubscribeForYear := Int64Value (toInt64 pricingItem.SubscribeForYear),
          MonthlyPrice := Float64Value pricingItem.MonthlyPrice,
          MonthlyPriceCurrency := StringValue pricingItem.MonthlyPriceCurrency }
      { m with Pricing := m.Pricing.append item }) model
  { model with LastUpdated := StringValue (formatRFC850 now) }

/-! ## `encoding/json`, `net/http` and the network -/

/-- A JSON document, as `json.Marshal` lays it out before writing it as text. -/
inductive JsonValue where
  | null : JsonValue
  | int (v : Int) : JsonValue
  | float (v : GoFloat64) : JsonValue
  | str (s : String) : JsonValue
  | arr (items : List JsonValue) : JsonValue
  | obj (fields : List (String × JsonValue)) : JsonValue

/-- The keys of a JSON object, in order; no keys for any other document. -/
def JsonValue.keys : JsonValue → List String
  | JsonValue.obj fields => fields.map (fun kv => kv.1)
  | _ => []

/-- The value stored under a key of a JSON object. -/
def JsonValue.get? (key : String) : JsonValue → Option JsonValue
  | JsonValue.obj fields => (fields.find? (fun kv => kv.1 == key)).map (fun kv => kv.2)
  | _ => none

/-- Whether the document is an array (and so neither `null` nor omitted). -/
def JsonValue.isArr : JsonValue → Bool
  | JsonValue.arr _ => true
  | _ => false

/-- A slice field: `null` for a nil slice, an array of its elements otherwise. -/
def marshalSlice {α : Type} (f : α → JsonValue) : Slice α → JsonValue
  | Slice.nil => JsonValue.null
  | Slice.mk xs => JsonValue.arr (xs.map f)

/-- The document of a `LimitsItem`, by its `json` tags. -/
def LimitsItem.toJson (l : LimitsItem) : JsonValue :=
  JsonValue.obj [("name", JsonValue.str l.Name), ("value", JsonValue.int l.Value)]

/-- The document of a `PrincingItem`, by its `json` tags. -/
def PrincingItem.toJson (p : PrincingItem) : JsonValue :=
  JsonValue.obj
    [("subscribe_for_year", JsonValue.int p.SubscribeForYear),
     ("monthly_price", JsonValue.float p.MonthlyPrice),
     ("monthly_price_currency", JsonValue.str p.MonthlyPriceCurrency)]

/-- The document of a `Plan`, by its `json` tags: `id` carries `omitempty` and is left out
when it is the zero value, the other four fields are always written. -/
def Plan.toJson (p : Plan) : JsonValue :=
  JsonValue.obj
    ((if p.ID = 0 then [] else [("id", JsonValue.int p.ID)]) ++
     [("name", JsonValue.str p.Name),
      ("features", marshalSlice JsonValue.str p.Features),
      ("limits", marshalSlice LimitsItem.toJson p.Limits),
      ("pricing", marshalSlice PrincingItem.toJson p.Pricing)])

structure AuthStruct where
  ClientId : String
  ClientSecret : String
  GrantType : String
deriving DecidableEq, Repr

structure AuthResponse where
  AccessToken : String
  Scope : String
  ExpiresIn : Int
  TokenType : String
deriving DecidableEq, Repr

/-- The document of an `AuthStruct`, by its `json` tags. -/
def AuthStruct.toJson (a : AuthStruct) : JsonValue :=
  JsonValue.obj
    [("client_id", JsonValue.str a.ClientId),
     ("client_secret", JsonValue.str a.ClientSecret),
     ("grant_type", JsonValue.str a.GrantType)]

/-- The parts of the Go standard library the client relies on: the text encoding of a JSON
document (`json.Marshal`), the decoding of a response body into a `Plan` or an `AuthResponse`
(`json.Unmarshal`), and the URL check made by `http.NewRequest` (the error of `url.Parse`,
if any). -/
structure GoStd where
  encode : JsonValue → Except String String
  unmarshalPlan : String → Except String Plan
  unmarshalAuthResponse : String → Except String AuthResponse
  urlError : String → Option String

structure Request where
  Method : String
  URL : String
  Body : Option String
  Header : List (String × String)
deriving DecidableEq, Repr

/-- The method `Header.Add`: one more value under the key. -/
def headerAdd (h : List (String × String)) (key value : String) : List (String × String) :=
  h ++ [(key, value)]

/-- The method `Header.Set`: the value replaces every value held under the key. -/
def headerSet (h : List (String × String)) (key value : String) : List (String × String) :=
  h.filter (fun kv => kv.1 != key) ++ [(key, value)]

/-- The function `http.NewRequest` for the methods the client uses: it fails when the URL does
not parse. -/
def NewRequest (std : GoStd) (method url : String) (body : Option String) :
    Except String Request :=
  match std.urlError url with
  | some err => Except.error err
  | none => Except.ok { Method := method, URL := url, Body := body, Header := [] }

/-- What `HTTPClient.Do` followed by `io.ReadAll` can give: a transport failure (a timeout is
one), or a response with its status code and the outcome of reading its body. -/
inductive HTTPResult where
  | failed (err : String) : HTTPResult
  | response (StatusCode : Int) (Body : Except String String) : HTTPResult

/-- The remote side: its answer to a request, given the requests it has received before. -/
abbrev Server := List Request → Request → HTTPResult

/-- The network calls made so far, oldest first. -/
structure World where
  sent : List Request
deriving DecidableEq, Repr

/-- The call `HTTPClient.Do(req)`: one network call. -/
def httpDo (srv : Server) (req : Request) (w : World) : HTTPResult × World :=
  (srv w.sent req, { sent := w.sent ++ [req] })

/-! ## `internal/client/client.go`, `auth.go`, `plan.go` -/

def AuthServerURL : String := "https://auth.quortex.io"
def HostURL : String := "https://api.quortex.io"

/-- The client; `HTTPTimeout` is the timeout of its `HTTPClient`, in seconds. -/
structure Client where
  AuthServerURL : String
  HostURL : String
  HTTPTimeout : Nat
  Token : String
  Auth : AuthStruct
deriving DecidableEq, Repr

/-- The error `fmt.Errorf("status: %d, body: %s", status, body)`. -/
def statusError (status : Int) (body : String) : String :=
  "status: " ++ Itoa status ++ ", body: " ++ body

/-- The request as `doRequest` sends it: the token, when there is one, and the content type
are set on it. -/
def Client.withHeaders (c : Client) (req : Request) : Request :=
  let req :=
    if c.Token ≠ "" then { req with Header := headerSet req.Header "Authorization" c.Token }
    else req
  { req with Header := headerSet req.Header "Content-Type" "application/json" }

def Client.doRequest (srv : Server) (c : Client) (req : Request) (w : World) :
    Except String String × World :=
  let req := c.withHeaders req
  match httpDo srv req w with
  | (HTTPResult.failed err, w) => (Except.error err, w)
  | (HTTPResult.response _ (Except.error err), w) => (Except.error err, w)
  | (HTTPResult.response StatusCode (Except.ok body), w) =>
    if StatusCode ≠ 200 ∧ StatusCode ≠ 201 ∧ StatusCode ≠ 204 then
      (Except.error (statusError StatusCode body), w)
    else
      (Except.ok body, w)

def Client.SignIn (std : GoStd) (srv : Server) (c : Client) (w : World) :
    Except String AuthResponse × World :=
  if c.Auth.ClientId = "" ∨ c.Auth.ClientSecret = "" then
    (Except.error "define client_id and client_secret", w)
  else
    match std.encode c.Auth.toJson with
    | Except.error err => (Except.error err, w)
    | Except.ok rb =>
      match NewRequest std "POST" (c.AuthServerURL ++ "/oauth/token") (some rb) with
      | Except.error err => (Except.error err, w)
      | Except.ok req =>
        let req := { req with Header := headerAdd req.Header "Content-Type" "application/json" }
        match c.doRequest srv req w with
        | (Except.error err, w) => (Except.error err, w)
        | (Except.ok body, w) =>
          match std.unmarshalAuthResponse body with
          | Except.error err => (Except.error err, w)
          | Except.ok ar => (Except.ok ar, w)

/-- The constructor `NewClient`; `auth_server` and `host` may be nil, `client_id` and
`client_secret` are dereferenced. -/
def NewClient (std : GoStd) (srv : Server) (auth_server host : Option String)
    (client_id client_secret : String) (w : World) : Except String Client × World :=
  let c : Client :=
    { HTTPTimeout := 10,
      HostURL := HostURL,
      AuthServerURL := AuthServerURL,
      Token := "",
      Auth := { ClientId := client_id, ClientSecret := client_secret,
                GrantType := "client_credentials" } }
  let c := match auth_server with
    | some a => { c with AuthServerURL := a }
    | none => c
  let c := match host with
    | some h => { c with HostURL := h }
    | none => c
  match c.SignIn std srv w with
  | (Except.error err, w) => (Except.error err, w)
  | (Except.ok ar, w) => (Except.ok { c with Token := "Bearer " ++ ar.AccessToken }, w)

def Client.GetPlan (std : GoStd) (srv : Server) (c : Client) (planID : String) (w : World) :
    Except String Plan × World :=
  match NewRequest std "GET" (c.HostURL ++ "/1.0/manage/billing/plans/" ++ planID) none with
  | Except.error err => (Except.error err, w)
  | Except.ok req =>
    match c.doRequest srv req w with
    | (Except.error err, w) => (Except.error err, w)
    | (Except.ok body, w) =>
      match std.unmarshalPlan body with
      | Except.error err => (Except.error err, w)
      | Except.ok plan => (Except.ok plan, w)

def Client.CreatePlan (std : GoStd) (srv : Server) (c : Client) (plan : Plan) (w : World) :
    Except String Plan × World :=
  match std.encode plan.toJson with
  | Except.error err => (Except.error err, w)
  | Except.ok rb =>
    match NewRequest std "POST" (c.HostURL ++ "/1.0/manage/billing/plans") (some rb) with
    | Except.error err => (Except.error err, w)
    | Except.ok req =>
      match c.doRequest srv req w with
      | (Except.error err, w) => (Except.error err, w)
      | (Except.ok body, w) =>
        match std.unmarshalPlan body with
        | Except.error err => (Except.error err, w)
        | Except.ok rplan => (Except.ok rplan, w)

def Client.UpdatePlan (std : GoStd) (srv : Server) (c : Client) (planID : String) (plan : Plan)
    (w : World) : Except String Plan × World :=
  match std.encode plan.toJson with
  | Except.error err => (Except.error err, w)
  | Except.ok rb =>
    match NewRequest std "PATCH" (c.HostURL ++ "/1.0/manage/billing/plans/" ++ planID)
        (some rb) with
    | Except.error err => (Except.error err, w)
    | Except.ok req =>
      match c.doRequest srv req w with
      | (Except.error err, w) => (Except.error err, w)
      | (Except.ok body, w) =>
        match std.unmarshalPlan body with
        | Except.error err => (Except.error err, w)
        | Except.ok rplan => (Except.ok rplan, w)

def Client.DeletePlan (std : GoStd) (srv : Server) (c : Client) (planID : String) (w : World) :
    Option String × World :=
  match NewRequest std "DELETE" (c.HostURL ++ "/1.0/manage/billing/plans/" ++ planID) none with
  | Except.error err => (some err, w)
  | Except.ok req =>
    match c.doRequest srv req w with
    | (Except.error err, w) => (some err, w)
    | (Except.ok _, w) => (none, w)

/-! ## Diagnostics of the plugin framework -/

inductive Severity where
  | error : Severity
  | warning : Severity
deriving DecidableEq, Repr

/-- A diagnostic; `path` names the root attribute it is attached to, if any. -/
structure Diagnostic where
  severity : Severity
  path : Option String
  summary : String
  detail : String
deriving DecidableEq, Repr

abbrev Diagnostics := List Diagnostic

/-- The method `Diagnostics.HasError`. -/
def HasError (ds : Diagnostics) : Bool :=
  ds.any (fun d => d.severity == Severity.error)

/-- The method `Diagnostics.Append` for one diagnostic: a diagnostic already held is not
added again. -/
def appendDiag (ds : Diagnostics) (d : Diagnostic) : Diagnostics :=
  if d ∈ ds then ds else ds ++ [d]

/-- The method `Diagnostics.Append`. -/
def appendDiags (ds : Diagnostics) (more : Diagnostics) : Diagnostics :=
  more.foldl appendDiag ds

/-- The method `Diagnostics.AddError`. -/
def AddError (ds : Diagnostics) (summary detail : String) : Diagnostics :=
  appendDiag ds
    { severity := Severity.error, path := none, summary := summary, detail := detail }

/-- The method `Diagnostics.AddAttributeError`, for the path `path.Root(root)`. -/
def AddAttributeError (ds : Diagnostics) (root summary detail : String) : Diagnostics :=
  appendDiag ds
    { severity := Severity.error, path := some root, summary := summary, detail := detail }

/-! ## `internal/provider/plan_resource.go`: the resource operations -/

structure planResource where
  client : Client
deriving DecidableEq, Repr

/-- What `Plan.Get(ctx, &model)` or `State.Get(ctx, &model)` gives: the diagnostics it returns
and the model it fills in. -/
structure Decoded where
  diags : Diagnostics
  model : planResourceModel
deriving DecidableEq, Repr

structure CreateRequest where
  Plan : Decoded

structure ReadRequest where
  State : Decoded

structure UpdateRequest where
  Plan : Decoded

structure DeleteRequest where
  State : Decoded

/-- The response of a resource operation (`CreateResponse`, `ReadResponse`, `UpdateResponse`,
`DeleteResponse`): its diagnostics and the state it holds, `none` while no state is held. -/
structure Response where
  Diagnostics : Diagnostics
  State : Option planResourceModel
deriving DecidableEq, Repr

/-- The call `resp.State.Set(ctx, model)`: the model becomes the state held by the response;
for this model it returns no diagnostics. -/
def Response.setState (resp : Response) (model : planResourceModel) : Response :=
  { resp with State := some model }

/-- The call `resp.Diagnostics.AddError(summary, detail)`. -/
def Response.addError (resp : Response) (summary detail : String) : Response :=
  { resp with Diagnostics := AddError resp.Diagnostics summary detail }

def planResource.Create (std : GoStd) (srv : Server) (r : planResource) (now : Time)
    (req : CreateRequest) (resp : Response) (w : World) : Response × World :=
  let plan := req.Plan.model
  let resp := { resp with Diagnostics := appendDiags resp.Diagnostics req.Plan.diags }
  if HasError resp.Diagnostics then (resp, w)
  else
    let newPlan := PlanModelToPlan plan
    match r.client.CreatePlan std srv newPlan w with
    | (Except.error err, w) =>
      (resp.addError "Error creating plan"
          ("Could not create plan, unexpected error: " ++ err), w)
    | (Except.ok rplan, w) =>
      let plan := { plan with ID := StringValue (Itoa rplan.ID) }
      let plan := PlanToPlanModel now rplan plan
      (resp.setState plan, w)

def planResource.Read (std : GoStd) (srv : Server) (r : planResource) (now : Time)
    (req : ReadRequest) (resp : Response) (w : World) : Response × World :=
  let state := req.State.model
  let resp := { resp with Diagnostics := appendDiags resp.Diagnostics req.State.diags }
  if HasError resp.Diagnostics then (resp, w)
  else
    match r.client.GetPlan std srv (ValueString state.ID) w with
    | (Except.error err, w) =>
      (resp.addError "Error Reading Administration Plan"
          ("Could not read Administration plan ID " ++ ValueString state.ID ++ ": " ++ err), w)
    | (Except.ok rplan, w) =>
      let state := { state with ID := StringValue (Itoa rplan.ID) }
      let state := PlanToPlanModel now rplan state
      (resp.setState state, w)

def planResource.Update (std : GoStd) (srv : Server) (r : planResource) (now : Time)
    (req : UpdateRequest) (resp : Response) (w : World) : Response × World :=
  let plan := req.Plan.model
  let resp := { resp with Diagnostics := appendDiags resp.Diagnostics req.Plan.diags }
  if HasError resp.Diagnostics then (resp, w)
  else
    let newPlan := PlanModelToPlan plan
    match r.client.UpdatePlan std srv (ValueString plan.ID) newPlan w with
    | (Except.error err, w) =>
      (resp.addError "Error Updating Administration Plan"
          ("Could not update plan, unexpected error: " ++ err), w)
    | (Except.ok _, w) =>
      match r.client.GetPlan std srv (ValueString plan.ID) w with
      | (Except.error err, w) =>
        (resp.addError "Error Reading Administration Plan"
          ("Could not read Administration plan ID " ++ ValueString plan.ID ++ ": " ++ err), w)
      | (Except.ok rplan, w) =>
        let plan := PlanToPlanModel now rplan plan
        (resp.setState plan, w)

def planResource.Delete (std : GoStd) (srv : Server) (r : planResource)
    (req : DeleteRequest) (resp : Response) (w : World) : Response × World :=
  let state := req.State.model
  let resp := { resp with Diagnostics := appendDiags resp.Diagnostics req.State.diags }
  if HasError resp.Diagnostics then (resp, w)
  else
    match r.client.DeletePlan std srv (ValueString state.ID) w with
    | (some err, w) =>
      (resp.addError "Error Deleting Administration Plan"
          ("Could not delete plan, unexpected error: " ++ err), w)
    | (none, w) => (resp, w)

/-! ## `internal/provider/provider.go`: `Configure` -/

structure administrationProviderModel where
  AuthServer : TfString
  Host : TfString
  ClientId : TfString
  ClientSecret : TfString
deriving DecidableEq, Repr

/-- What `req.Config.Get(ctx, &config)` gives. -/
structure ConfigureRequest where
  diags : Diagnostics
  config : administrationProviderModel

structure ConfigureResponse where
  Diagnostics : Diagnostics
  DataSourceData : Option Client
  ResourceData : Option Client
deriving DecidableEq, Repr

/-- The detail of the diagnostic for an unknown configuration value. -/
def unknownDetail (name envName : String) : String :=
  "The provider cannot create the Administration API client as there is an unknown " ++
  "configuration value for the Administration API " ++ name ++ ". " ++
  "Either target apply the source of the value first, set the value statically in the " ++
  "configuration, or use the " ++ envName ++ " environment variable."

/-- The detail of the diagnostic for a missing or empty configuration value. -/
def missingDetail (name envName : String) : String :=
  "The provider cannot create the Administration API client as there is a missing or empty " ++
  "value for the Administration API " ++ name ++ ". " ++
  "Set the " ++ name ++ " value in the configuration or use the " ++ envName ++
  " environment variable. " ++
  "If either is already set, ensure the value is not empty."

/-- The call `resp.Diagnostics.AddAttributeError(path.Root(root), summary, detail)`. -/
def ConfigureResponse.addAttributeError (resp : ConfigureResponse)
    (root summary detail : String) : ConfigureResponse :=
  { resp with Diagnostics := AddAttributeError resp.Diagnostics root summary detail }

/-- The call `resp.Diagnostics.AddError(summary, detail)`. -/
def ConfigureResponse.addError (resp : ConfigureResponse) (summary detail : String) :
    ConfigureResponse :=
  { resp with Diagnostics := AddError resp.Diagnostics summary detail }

/-- The provider operation `Configure`; `getenv` is `os.Getenv`. -/
def administrationProvider.Configure (std : GoStd) (srv : Server) (getenv : String → String)
    (req : ConfigureRequest) (resp : ConfigureResponse) (w : World) :
    ConfigureResponse × World :=
  let config := req.config
  let resp := { resp with Diagnostics := appendDiags resp.Diagnostics req.diags }
  if HasError resp.Diagnostics then (resp, w)
  else
    let resp :=
      if config.AuthServer.IsUnknown then
        resp.addAttributeError "auth_server"
          "Unknown Administration API Auth Server"
          (unknownDetail "auth_server" "ADMINISTRATION_AUTH_SERVER")
      else resp
    let resp :=
      if config.Host.IsUnknown then
        resp.addAttributeError "host"
          "Unknown Administration API Host"
          (unknownDetail "host" "ADMINISTRATION_HOST")
      else resp
    let resp :=
      if config.ClientId.IsUnknown then
        resp.addAttributeError "client_id"
          "Unknown Administration API ClientId"
          (unknownDetail "client_id" "ADMINISTRATION_CLIENT_ID")
      else resp
    let resp :=
      if config.ClientSecret.IsUnknown then
        resp.addAttributeError "client_secret"
          "Unknown Administration API ClientSecret"
          (unknownDetail "client_secret" "ADMINISTRATION_CLIENT_SECRET")
      else resp
    if HasError resp.Diagnostics then (resp, w)
    else
      let auth_server := getenv "ADMINISTRATION_AUTH_SERVER"
      let host := getenv "ADMINISTRATION_HOST"
      let client_id := getenv "ADMINISTRATION_CLIENT_ID"
      let client_secret := getenv "ADMINISTRATION_CLIENT_SECRET"
      let auth_server :=
        if !config.AuthServer.IsNull then ValueString config.AuthServer else auth_server
      let host := if !config.Host.IsNull then ValueString config.Host else host
      let client_id :=
        if !config.ClientId.IsNull then ValueString config.ClientId else client_id
      let client_secret :=
        if !config.ClientSecret.IsNull then ValueString config.ClientSecret else client_secret
      let resp :=
        if auth_server = "" then
          resp.addAttributeError "auth_server"
          "Missing Administration API Auth Server"
          (missingDetail "auth_server" "ADMINISTRATION_AUTH_SERVER")
        else resp
      let resp :=
        if host = "" then
          resp.addAttributeError "host"
          "Missing Administration API Host"
          (missingDetail "host" "ADMINISTRATION_HOST")
        else resp
      let resp :=
        if client_id = "" then
          resp.addAttributeError "client_id"
          "Missing Administration API ClientId"
          (missingDetail "client_id" "ADMINISTRATION_CLIENT_ID")
        else resp
      let resp :=
        if client_secret = "" then
          resp.addAttributeError "client_secret"
          "Missing Administration API ClientSecret"
          (missingDetail "client_secret" "ADMINISTRATION_CLIENT_SECRET")
        else resp
      if HasError resp.Diagnostics then (resp, w)
      else
        match NewClient std srv (some auth_server) (some host) client_id client_secret w with
        | (Except.error err, w) =>
          (resp.addError "Unable to Create Administration API Client"
          ("An unexpected error occurred when creating the Administration API client. " ++
               "If the error is not clear, please contact the provider developers.\n\n" ++
               "Administration Client Error: " ++ err), w)
        | (Except.ok client, w) =>
          ({ resp with DataSourceData := some client, ResourceData := some client }, w)

/-! ## Properties stated over the embedding -/

def limitItemModel.allKnown (l : limitItemModel) : Bool :=
  l.Name.isKnown && l.Value.isKnown

def pricingItemModel.allKnown (p : pricingItemModel) : Bool :=
  p.SubscribeForYear.isKnown && p.MonthlyPrice.isKnown && p.MonthlyPriceCurrency.isKnown

/-- Every data field of the model is a known value: its name, each feature, and each field
of each limit and pricing entry. -/
def planResourceModel.allKnown (P : planResourceModel) : Bool :=
  P.Name.isKnown && P.Features.elems.all TfValue.isKnown &&
    P.Limits.elems.all limitItemModel.allKnown && P.Pricing.elems.all pricingItemModel.allKnown

/-- The model `Q` has the name of `P` and, element for element and in the same order, its
features, limits and pricing; the identifier and `last_updated` are not compared. -/
def sameData (Q P : planResourceModel) : Prop :=
  Q.Name = P.Name ∧ Q.Features.elems = P.Features.elems ∧
    Q.Limits.elems = P.Limits.elems ∧ Q.Pricing.elems = P.Pricing.elems

instance (Q P : planResourceModel) : Decidable (sameData Q P) := by
  unfold sameData
  infer_instance

/-- The tracked form of a wire limit. -/
def limitOfWire (l : LimitsItem) : limitItemModel :=
  { Name := TfValue.known l.Name, Value := TfValue.known l.Value }

/-- The tracked form of a wire pricing entry. -/
def pricingOfWire (p : PrincingItem) : pricingItemModel :=
  { SubscribeForYear := TfValue.known p.SubscribeForYear,
    MonthlyPrice := TfValue.known p.MonthlyPrice,
    MonthlyPriceCurrency := TfValue.known p.MonthlyPriceCurrency }

/-- The model carries the data of the wire plan `R`: its name as a known value and its
features, limits and pricing as non-nil sequences of known values, in the order of `R`. -/
def carries (S : planResourceModel) (R : Plan) : Prop :=
  S.Name = TfValue.known R.Name ∧
    S.Features = Slice.mk (R.Features.elems.map TfValue.known) ∧
    S.Limits = Slice.mk (R.Limits.elems.map limitOfWire) ∧
    S.Pricing = Slice.mk (R.Pricing.elems.map pricingOfWire)

instance (S : planResourceModel) (R : Plan) : Decidable (carries S R) := by
  unfold carries
  infer_instance

/-! ## Fixtures for the concrete cases -/

def noon : Time :=
  { weekday := 1, day := 2, month := 0, year := 2006, hour := 15, minute := 4, second := 5,
    zone := "MST" }

def midnight : Time :=
  { weekday := 2, day := 3, month := 0, year := 2006, hour := 0, minute := 0, second := 0,
    zone := "MST" }

/-- A model with no data at all, as a freshly declared `planResourceModel` variable. -/
def emptyModel : planResourceModel :=
  { ID := TfValue.null, Name := TfValue.null, LastUpdated := TfValue.null,
    Features := Slice.nil, Limits := Slice.nil, Pricing := Slice.nil }

/-- The plan of Scenario A; `0x4023FAE147AE147B` is the `float64` nearest to 9.99. -/
def proPlan : planResourceModel :=
  { ID := TfValue.unknown, Name := TfValue.known "Pro", LastUpdated := TfValue.unknown,
    Features := Slice.mk [TfValue.known "sso"],
    Limits := Slice.mk [{ Name := TfValue.known "seats", Value := TfValue.known 10 }],
    Pricing := Slice.mk
      [{ SubscribeForYear := TfValue.known 1, MonthlyPrice := TfValue.known ⟨0x4023FAE147AE147B⟩,
         MonthlyPriceCurrency := TfValue.known "USD" }] }

/-- A plan whose feature list holds a null element (`features = ["sso", null]`). -/
def nullFeaturePlan : planResourceModel :=
  { proPlan with Features := Slice.mk [TfValue.known "sso", TfValue.null] }

/-- The wire plan of Scenario A with the identifier 42. -/
def wirePro : Plan :=
  { ID := 42, Name := "Pro", Features := Slice.mk ["sso"],
    Limits := Slice.mk [{ Name := "seats", Value := 10 }],
    Pricing := Slice.mk
      [{ SubscribeForYear := 1, MonthlyPrice := ⟨0x4023FAE147AE147B⟩,
         MonthlyPriceCurrency := "USD" }] }

/-- The response bodies of the concrete cases and the plans they decode to: `plan-42` is the
Pro plan with identifier 42, `plan-42-partial` the same plan with only id and name present,
`plan-42-blank` the Pro plan with a second, empty feature, and `plan-anon` the Pro plan with
no id in the document. -/
def fixturePlans (body : String) : Option Plan :=
  if body = "plan-42" then some wirePro
  else if body = "plan-42-partial" then
    some { wirePro with Features := Slice.nil, Limits := Slice.nil, Pricing := Slice.nil }
  else if body = "plan-42-blank" then some { wirePro with Features := Slice.mk ["sso", ""] }
  else if body = "plan-anon" then some { wirePro with ID := 0 }
  else none

/-- A stand-in for the standard library in the concrete cases: every document is written as
the text `payload`, the bodies of `fixturePlans` decode to their plans, and every URL
parses. -/
def fixtureStd : GoStd :=
  { encode := fun _ => Except.ok "payload",
    unmarshalPlan := fun body =>
      match fixturePlans body with
      | some plan => Except.ok plan
      | none => Except.error "unexpected end of JSON input",
    unmarshalAuthResponse := fun _ =>
      Except.ok { AccessToken := "t0k3n", Scope := "", ExpiresIn := 3600, TokenType := "Bearer" },
    urlError := fun _ => none }

/-- A server answering every request with the same status and body. -/
def constServer (status : Int) (body : String) : Server :=
  fun _ _ => HTTPResult.response status (Except.ok body)

/-- The server of Scenario C: the answer to the write leaves the features out, the answer to
the read is complete. -/
def partialWriteServer : Server :=
  fun _ req =>
    if req.Method = "PATCH" then HTTPResult.response 200 (Except.ok "plan-42-partial")
    else HTTPResult.response 200 (Except.ok "plan-42")

/-- The resource with the signed-in client of the concrete cases. -/
def fixtureResource : planResource :=
  { client :=
      { AuthServerURL := AuthServerURL, HostURL := HostURL, HTTPTimeout := 10,
        Token := "Bearer t0k3n",
        Auth := { ClientId := "id", ClientSecret := "secret",
                  GrantType := "client_credentials" } } }

/-- A response holding no diagnostics and no state. -/
def Response.empty : Response := { Diagnostics := [], State := none }

/-- The Pro plan as tracked after its creation with identifier 42. -/
def trackedPro : planResourceModel :=
  { proPlan with ID := TfValue.known "42", LastUpdated := TfValue.known "earlier" }

/-- The Pro plan with no identifier yet (state Unmanaged). -/
def unmanagedPro : planResourceModel :=
  { proPlan with ID := TfValue.null, LastUpdated := TfValue.null }

/-- A signed-in client for the concrete cases. -/
def fixtureClient : Client :=
  { AuthServerURL := AuthServerURL, HostURL := HostURL, HTTPTimeout := 10,
    Token := "Bearer t0k3n",
    Auth := { ClientId := "id", ClientSecret := "secret", GrantType := "client_credentials" } }

/-- The world before any network call. -/
def World.start : World := { sent := [] }

/-- The server of Scenario D: every request is answered with status 500 and an error body. -/
def downServer : Server :=
  fun _ _ => HTTPResult.response 500 (Except.ok "\x7b\"error\":\"db down\"\x7d")

/-- A read request for plan 42, before `doRequest` sets its headers. -/
def readRequest42 : Request :=
  { Method := "GET", URL := "https://api.quortex.io/1.0/manage/billing/plans/42", Body := none,
    Header := [] }

/-- The data of the wire plan `A` are those of the wire plan `B`: the same name and, element
for element, the same features, limits and pricing; the identifier is not compared. -/
def sameWire (A B : Plan) : Prop :=
  A.Name = B.Name ∧ A.Features.elems = B.Features.elems ∧
    A.Limits.elems = B.Limits.elems ∧ A.Pricing.elems = B.Pricing.elems

instance (A B : Plan) : Decidable (sameWire A B) := by
  unfold sameWire
  infer_instance

/-- The field `last_updated` holds a known, non-empty text. -/
def stamped (S : planResourceModel) : Prop :=
  ∃ t, S.LastUpdated = TfValue.known t ∧ t ≠ ""

/-- The four settings of the provider after resolution. -/
structure Resolved where
  auth_server : String
  host : String
  client_id : String
  client_secret : String
deriving DecidableEq, Repr

/-- The resolved value of one setting as the specification words it: the explicit
configuration value when it is not null, the value of the environment variable otherwise. -/
def resolveOne (cfg : TfString) (env : String) : String :=
  match cfg with
  | TfValue.null => env
  | explicit => ValueString explicit

/-- The resolved settings as the specification words them. -/
def resolve (getenv : String → String) (config : administrationProviderModel) : Resolved :=
  { auth_server := resolveOne config.AuthServer (getenv "ADMINISTRATION_AUTH_SERVER"),
    host := resolveOne config.Host (getenv "ADMINISTRATION_HOST"),
    client_id := resolveOne config.ClientId (getenv "ADMINISTRATION_CLIENT_ID"),
    client_secret := resolveOne config.ClientSecret (getenv "ADMINISTRATION_CLIENT_SECRET") }

/-- Some resolved setting is empty. -/
def Resolved.anyEmpty (r : Resolved) : Prop :=
  r.auth_server = "" ∨ r.host = "" ∨ r.client_id = "" ∨ r.client_secret = ""

instance (r : Resolved) : Decidable r.anyEmpty := by
  unfold Resolved.anyEmpty
  infer_instance

/-- No setting of the configuration is unknown. -/
def administrationProviderModel.noneUnknown (config : administrationProviderModel) : Bool :=
  !config.AuthServer.IsUnknown && !config.Host.IsUnknown && !config.ClientId.IsUnknown &&
    !config.ClientSecret.IsUnknown

/-- A response of `Configure` holding no diagnostics and no client. -/
def ConfigureResponse.empty : ConfigureResponse :=
  { Diagnostics := [], DataSourceData := none, ResourceData := none }

/-- An environment where only the client identifier and the host are set. -/
def fixtureEnv (name : String) : String :=
  if name = "ADMINISTRATION_CLIENT_ID" then "env-id"
  else if name = "ADMINISTRATION_HOST" then "https://env.example"
  else ""

/-- A configuration giving the client identifier and the authorization server, and neither
the host nor the client secret. -/
def fixtureConfig : administrationProviderModel :=
  { AuthServer := TfValue.known "https://auth.example", Host := TfValue.null,
    ClientId := TfValue.known "cfg-id", ClientSecret := TfValue.null }

/-- The response after the four checks for unknown configuration values. -/
def flagUnknown (config : administrationProviderModel) (resp : ConfigureResponse) :
    ConfigureResponse :=
  let resp :=
    if config.AuthServer.IsUnknown then
      resp.addAttributeError "auth_server" "Unknown Administration API Auth Server"
        (unknownDetail "auth_server" "ADMINISTRATION_AUTH_SERVER")
    else resp
  let resp :=
    if config.Host.IsUnknown then
      resp.addAttributeError "host" "Unknown Administration API Host"
        (unknownDetail "host" "ADMINISTRATION_HOST")
    else resp
  let resp :=
    if config.ClientId.IsUnknown then
      resp.addAttributeError "client_id" "Unknown Administration API ClientId"
        (unknownDetail "client_id" "ADMINISTRATION_CLIENT_ID")
    else resp
  if config.ClientSecret.IsUnknown then
    resp.addAttributeError "client_secret" "Unknown Administration API ClientSecret"
      (unknownDetail "client_secret" "ADMINISTRATION_CLIENT_SECRET")
  else resp

/-- The response after the four checks for missing or empty resolved values. -/
def flagMissing (r : Resolved) (resp : ConfigureResponse) : ConfigureResponse :=
  let resp :=
    if r.auth_server = "" then
      resp.addAttributeError "auth_server" "Missing Administration API Auth Server"
        (missingDetail "auth_server" "ADMINISTRATION_AUTH_SERVER")
    else resp
  let resp :=
    if r.host = "" then
      resp.addAttributeError "host" "Missing Administration API Host"
        (missingDetail "host" "ADMINISTRATION_HOST")
    else resp
  let resp :=
    if r.client_id = "" then
      resp.addAttributeError "client_id" "Missing Administration API ClientId"
        (missingDetail "client_id" "ADMINISTRATION_CLIENT_ID")
    else resp
  if r.client_secret = "" then
    resp.addAttributeError "client_secret" "Missing Administration API ClientSecret"
      (missingDetail "client_secret" "ADMINISTRATION_CLIENT_SECRET")
  else resp

/-- The end of `Configure`: the client is constructed from the resolved settings and handed
to the response, or the failure is reported. -/
def connect (std : GoStd) (srv : Server) (r : Resolved) (resp : ConfigureResponse)
    (w : World) : ConfigureResponse × World :=
  match NewClient std srv (some r.auth_server) (some r.host) r.client_id r.client_secret w with
  | (Except.error err, w) =>
    (resp.addError "Unable to Create Administration API Client"
      ("An unexpected error occurred when creating the Administration API client. " ++
       "If the error is not clear, please contact the provider developers.\n\n" ++
       "Administration Client Error: " ++ err), w)
  | (Except.ok client, w) =>
    ({ resp with DataSourceData := some client, ResourceData := some client }, w)

/-- The error diagnostic that `AddError` builds from a summary and a detail. -/
def errorDiag (summary detail : String) : Diagnostic :=
  { severity := Severity.error, path := none, summary := summary, detail := detail }

/-- The severity, path and summary of each diagnostic, the detail left out. -/
def headlines (ds : Diagnostics) : List (Severity × Option String × String) :=
  ds.map (fun d => (d.severity, d.path, d.summary))

structure ImportStateRequest where
  ID : String
deriving DecidableEq, Repr

/-- The call `resp.State.SetAttribute(ctx, path.Root("id"), value)`: the attribute `id` of
the state held by the response becomes the known value; a response holding no state holds
afterwards a state whose other attributes are null. -/
def Response.setID (resp : Response) (value : String) : Response :=
  match resp.State with
  | none => { resp with State := some { emptyModel with ID := StringValue value } }
  | some model => { resp with State := some { model with ID := StringValue value } }

/-- The framework function `resource.ImportStatePassthroughID` for the path
`path.Root("id")`: the import identifier of the request is written to the attribute `id`. -/
def ImportStatePassthroughID (req : ImportStateRequest) (resp : Response) : Response :=
  resp.setID req.ID

def planResource.ImportState (_r : planResource) (req : ImportStateRequest)
    (resp : Response) : Response :=
  ImportStatePassthroughID req resp

/-- The import of a plan by its identifier, as the host framework runs it: `ImportState` on
a response holding nothing, then the refresh `Read` on the state that `ImportState` left. -/
def planResource.Import (std : GoStd) (srv : Server) (r : planResource) (now : Time)
    (id : String) (w : World) : Response × World :=
  let imported := r.ImportState { ID := id } Response.empty
  match imported.State with
  | none => (imported, w)
  | some state =>
    r.Read std srv now { State := { diags := [], model := state } } imported w

/-! ## Lemmas on the mapper -/

theorem foldl_append_eq {α β : Type} (f : α → β) (xs : List α) (ys : List β) :
    xs.foldl (fun acc item => acc.append (f item)) (Slice.mk ys) = Slice.mk (ys ++ xs.map f) := by
  induction xs generalizing ys with
  | nil => simp
  | cons x xs ih =>
    have step : (Slice.mk ys).append (f x) = Slice.mk (ys ++ [f x]) := rfl
    rw [List.foldl_cons, step, ih]
    simp

theorem PlanModelToPlan_eq (P : planResourceModel) :
    PlanModelToPlan P =
      { ID := 0, Name := ValueString P.Name,
        Features := Slice.mk (P.Features.elems.map ValueString),
        Limits := Slice.mk (P.Limits.elems.map
          (fun item => { Name := ValueString item.Name, Value := ValueInt64 item.Value })),
        Pricing := Slice.mk (P.Pricing.elems.map
          (fun item =>
            { SubscribeForYear := ValueInt64 item.SubscribeForYear,
              MonthlyPrice := ValueFloat64 item.MonthlyPrice,
              MonthlyPriceCurrency := ValueString item.MonthlyPriceCurrency })) } := by
  simp [PlanModelToPlan, Plan.named, foldl_append_eq, toInt]

theorem foldl_features_eq (xs : List String) (m : planResourceModel) (ys : List TfString)
    (h : m.Features = Slice.mk ys) :
    xs.foldl (fun (m : planResourceModel) ftrItem =>
        { m with Features := m.Features.append (StringValue ftrItem) }) m =
      { m with Features := Slice.mk (ys ++ xs.map TfValue.known) } := by
  induction xs generalizing m ys with
  | nil => simp [← h]
  | cons x xs ih =>
    rw [List.foldl_cons, ih _ (ys ++ [StringValue x]) (by simp [h, Slice.append, Slice.elems])]
    simp [StringValue]

theorem foldl_limits_eq (xs : List LimitsItem) (m : planResourceModel)
    (ys : List limitItemModel) (h : m.Limits = Slice.mk ys) :
    xs.foldl (fun (m : planResourceModel) limitItem =>
        let item : limitItemModel :=
          { Name := StringValue limitItem.Name,
            Value := Int64Value (toInt64 limitItem.Value) }
        { m with Limits := m.Limits.append item }) m =
      { m with Limits := Slice.mk (ys ++ xs.map limitOfWire) } := by
  induction xs generalizing m ys with
  | nil => simp [← h]
  | cons x xs ih =>
    rw [List.foldl_cons, ih _ (ys ++ [limitOfWire x])
      (by simp [h, Slice.append, Slice.elems, limitOfWire, StringValue, Int64Value, toInt64])]
    simp

theorem foldl_pricing_eq (xs : List PrincingItem) (m : planResourceModel)
    (ys : List pricingItemModel) (h : m.Pricing = Slice.mk ys) :
    xs.foldl (fun (m : planResourceModel) pricingItem =>
        let item : pricingItemModel :=
          { SubscribeForYear := Int64Value (toInt64 pricingItem.SubscribeForYear),
            MonthlyPrice := Float64Value pricingItem.MonthlyPrice,
            MonthlyPriceCurrency := StringValue pricingItem.MonthlyPriceCurrency }
        { m with Pricing := m.Pricing.append item }) m =
      { m with Pricing := Slice.mk (ys ++ xs.map pricingOfWire) } := by
  induction xs generalizing m ys with
  | nil => simp [← h]
  | cons x xs ih =>
    rw [List.foldl_cons, ih _ (ys ++ [pricingOfWire x])
      (by simp [h, Slice.append, Slice.elems, pricingOfWire, StringValue, Int64Value,
        Float64Value, toInt64])]
    simp

theorem PlanToPlanModel_eq (now : Time) (plan : Plan) (model : planResourceModel) :
    PlanToPlanModel now plan model =
      { ID := model.ID, Name := TfValue.known plan.Name,
        LastUpdated := TfValue.known (formatRFC850 now),
        Features := Slice.mk (plan.Features.elems.map TfValue.known),
        Limits := Slice.mk (plan.Limits.elems.map limitOfWire),
        Pricing := Slice.mk (plan.Pricing.elems.map pricingOfWire) } := by
  unfold PlanToPlanModel
  simp only []
  rw [foldl_features_eq _ _ [] rfl]
  rw [foldl_limits_eq _ _ [] rfl]
  rw [foldl_pricing_eq _ _ [] rfl]
  simp [StringValue]

theorem map_known_ValueString (xs : List TfString) (h : xs.all TfValue.isKnown = true) :
    xs.map (fun x => TfValue.known (ValueString x)) = xs := by
  induction xs with
  | nil => rfl
  | cons x xs ih =>
    simp only [List.all_cons, Bool.and_eq_true] at h
    rw [List.map_cons, ih h.2]
    cases x <;> simp_all [TfValue.isKnown, ValueString]

theorem map_limit_roundtrip (xs : List limitItemModel)
    (h : xs.all limitItemModel.allKnown = true) :
    xs.map (fun item =>
      limitOfWire { Name := ValueString item.Name, Value := ValueInt64 item.Value }) = xs := by
  induction xs with
  | nil => rfl
  | cons x xs ih =>
    simp only [List.all_cons, Bool.and_eq_true] at h
    rw [List.map_cons, ih h.2]
    obtain ⟨n, v⟩ := x
    cases n <;> cases v <;>
      simp_all [limitItemModel.allKnown, TfValue.isKnown, ValueString, ValueInt64, limitOfWire]

theorem map_pricing_roundtrip (xs : List pricingItemModel)
    (h : xs.all pricingItemModel.allKnown = true) :
    xs.map (fun item =>
      pricingOfWire
        { SubscribeForYear := ValueInt64 item.SubscribeForYear,
          MonthlyPrice := ValueFloat64 item.MonthlyPrice,
          MonthlyPriceCurrency := ValueString item.MonthlyPriceCurrency }) = xs := by
  induction xs with
  | nil => rfl
  | cons x xs ih =>
    simp only [List.all_cons, Bool.and_eq_true] at h
    rw [List.map_cons, ih h.2]
    obtain ⟨y, p, c⟩ := x
    cases y <;> cases p <;> cases c <;>
      simp_all [pricingItemModel.allKnown, TfValue.isKnown, ValueString, ValueInt64,
        ValueFloat64, pricingOfWire]

/-! ## C1: round trip of the resource mapper -/

/-- C1, as stated, fails: for the plan whose features are `["sso", null]`, mapping to the wire
plan and back gives the features `["sso", ""]`, which are not those of the plan. -/
theorem roundtrip_null_feature_counterexample :
    ¬ sameData (PlanToPlanModel noon (PlanModelToPlan nullFeaturePlan) emptyModel)
        nullFeaturePlan := by
  decide

/-- C1, amended: for every tracked plan model `P` whose name, features and limit and pricing
fields are all known values, `PlanToPlanModel` applied to `PlanModelToPlan P` yields a model
whose name, features, limits and pricing equal those of `P`, element for element and in the
same order, whatever the model written into and the clock reading. -/
theorem roundtrip_of_allKnown (now : Time) (model P : planResourceModel)
    (h : P.allKnown = true) :
    sameData (PlanToPlanModel now (PlanModelToPlan P) model) P := by
  simp only [planResourceModel.allKnown, Bool.and_eq_true] at h
  obtain ⟨⟨⟨hn, hf⟩, hl⟩, hp⟩ := h
  rw [PlanToPlanModel_eq, PlanModelToPlan_eq]
  refine ⟨?_, ?_, ?_, ?_⟩
  · cases hP : P.Name <;> simp_all [TfValue.isKnown, ValueString]
  · simpa [Slice.elems, Function.comp_def] using map_known_ValueString _ hf
  · simpa [Slice.elems, Function.comp_def] using map_limit_roundtrip _ hl
  · simpa [Slice.elems, Function.comp_def] using map_pricing_roundtrip _ hp

theorem roundtrip_of_allKnown_witness :
    proPlan.allKnown = true ∧
      sameData (PlanToPlanModel noon (PlanModelToPlan proPlan) emptyModel) proPlan :=
  ⟨by decide, roundtrip_of_allKnown noon emptyModel proPlan (by decide)⟩

/-! ## C4: shape of the wire plan -/

/-- C4: for every tracked plan model `P`, the wire plan `PlanModelToPlan P` has the zero
identifier, so its document has no `id` key and exactly the keys name, features, limits and
pricing; the name is that of `P`; and features, limits and pricing are non-nil sequences
holding the values of `P` in order (empty when `P` has none), written as arrays. -/
theorem PlanModelToPlan_wire_shape (P : planResourceModel) :
    (PlanModelToPlan P).ID = 0 ∧
    (PlanModelToPlan P).toJson.keys = ["name", "features", "limits", "pricing"] ∧
    (PlanModelToPlan P).toJson.get? "name" = some (JsonValue.str (ValueString P.Name)) ∧
    ((PlanModelToPlan P).Features.isNil = false ∧
      (PlanModelToPlan P).Limits.isNil = false ∧
      (PlanModelToPlan P).Pricing.isNil = false) ∧
    ((PlanModelToPlan P).Features.elems.length = P.Features.elems.length ∧
      (PlanModelToPlan P).Limits.elems.length = P.Limits.elems.length ∧
      (PlanModelToPlan P).Pricing.elems.length = P.Pricing.elems.length) ∧
    (((PlanModelToPlan P).toJson.get? "features").map JsonValue.isArr = some true ∧
      ((PlanModelToPlan P).toJson.get? "limits").map JsonValue.isArr = some true ∧
      ((PlanModelToPlan P).toJson.get? "pricing").map JsonValue.isArr = some true) := by
  rw [PlanModelToPlan_eq]
  simp [Plan.toJson, JsonValue.keys, JsonValue.get?, marshalSlice, JsonValue.isArr,
    Slice.isNil, Slice.elems, List.find?]

/-! ## C2: status classification in `doRequest` -/

/-- C2: when the response to the request sent by `doRequest` has status `s` and body `b`,
`doRequest` returns `b` as success if and only if `s` is 200, 201 or 204, and for every other
status it returns the error whose text is `status: ` followed by `s` in decimal, then
`, body: ` and the body `b` unchanged. -/
theorem doRequest_status_classification (srv : Server) (c : Client) (req : Request) (w : World)
    (s : Int) (b : String)
    (h : srv w.sent (c.withHeaders req) = HTTPResult.response s (Except.ok b)) :
    ((c.doRequest srv req w).1 = Except.ok b ↔ (s = 200 ∨ s = 201 ∨ s = 204)) ∧
    (¬ (s = 200 ∨ s = 201 ∨ s = 204) →
      (c.doRequest srv req w).1 = Except.error ("status: " ++ Itoa s ++ ", body: " ++ b)) := by
  by_cases hs : s = 200 ∨ s = 201 ∨ s = 204
  · have hne : ¬ (s ≠ 200 ∧ s ≠ 201 ∧ s ≠ 204) := by omega
    simp [Client.doRequest, httpDo, h, hne, hs]
  · have hne : s ≠ 200 ∧ s ≠ 201 ∧ s ≠ 204 := by omega
    simp [Client.doRequest, httpDo, h, hne, hs, statusError]

theorem doRequest_status_classification_witness :
    (fixtureClient.doRequest downServer readRequest42 World.start).1 =
      Except.error "status: 500, body: \x7b\"error\":\"db down\"\x7d" :=
  (doRequest_status_classification downServer fixtureClient readRequest42 World.start 500
    "\x7b\"error\":\"db down\"\x7d" rfl).2 (by decide)

/-! ## C3: sign-in without credentials -/

/-- C3: when the client identifier or the client secret is empty, `SignIn` fails with the
error `define client_id and client_secret` and leaves the world as it was (no request is
sent), and `NewClient` fails with that error, returns no client and sends nothing. -/
theorem SignIn_empty_credentials (std : GoStd) (srv : Server) (w : World)
    (auth_server host : Option String) (client_id client_secret : String)
    (h : client_id = "" ∨ client_secret = "") :
    (∀ c : Client, c.Auth.ClientId = client_id → c.Auth.ClientSecret = client_secret →
      c.SignIn std srv w = (Except.error "define client_id and client_secret", w)) ∧
    NewClient std srv auth_server host client_id client_secret w =
      (Except.error "define client_id and client_secret", w) := by
  have sign : ∀ c : Client, c.Auth.ClientId = client_id → c.Auth.ClientSecret = client_secret →
      c.SignIn std srv w = (Except.error "define client_id and client_secret", w) := by
    intro c hid hsec
    have hc : c.Auth.ClientId = "" ∨ c.Auth.ClientSecret = "" := by
      rw [hid, hsec]; exact h
    simp [Client.SignIn, hc]
  refine ⟨sign, ?_⟩
  unfold NewClient
  cases auth_server <;> cases host <;> simp only [] <;> rw [sign _ rfl rfl]

theorem SignIn_empty_credentials_witness :
    NewClient fixtureStd downServer none none "" "secret" World.start =
      (Except.error "define client_id and client_secret", World.start) :=
  (SignIn_empty_credentials fixtureStd downServer World.start none none "" "secret"
    (Or.inl rfl)).2

/-! ## Lemmas on the resource operations -/

theorem formatRFC850_ne_empty (t : Time) : formatRFC850 t ≠ "" := by
  intro h
  have hlen : (formatRFC850 t).length = 0 := by rw [h]; rfl
  have two : (", " : String).length = 2 := by decide
  simp only [formatRFC850, String.length_append, two] at hlen
  omega

theorem PlanToPlanModel_stamped (now : Time) (plan : Plan) (model : planResourceModel) :
    stamped (PlanToPlanModel now plan model) :=
  ⟨formatRFC850 now, by rw [PlanToPlanModel_eq], formatRFC850_ne_empty now⟩

theorem PlanToPlanModel_carries (now : Time) (plan : Plan) (model : planResourceModel) :
    carries (PlanToPlanModel now plan model) plan := by
  rw [PlanToPlanModel_eq]
  exact ⟨rfl, rfl, rfl, rfl⟩

theorem PlanToPlanModel_ID (now : Time) (plan : Plan) (model : planResourceModel) :
    (PlanToPlanModel now plan model).ID = model.ID := by
  rw [PlanToPlanModel_eq]

theorem sameData_of_sameWire (now : Time) (R : Plan) (model D : planResourceModel)
    (hR : sameWire R (PlanModelToPlan D)) (hD : D.allKnown = true) :
    sameData (PlanToPlanModel now R model) D := by
  simp only [planResourceModel.allKnown, Bool.and_eq_true] at hD
  obtain ⟨⟨⟨hn, hf⟩, hl⟩, hp⟩ := hD
  rw [PlanModelToPlan_eq] at hR
  obtain ⟨rn, rf, rl, rp⟩ := hR
  simp only [Slice.elems] at rf rl rp
  rw [PlanToPlanModel_eq]
  refine ⟨?_, ?_, ?_, ?_⟩
  · simp only [rn]
    cases hP : D.Name <;> simp_all [TfValue.isKnown, ValueString]
  · simpa [Slice.elems, rf, Function.comp_def] using map_known_ValueString _ hf
  · simpa [Slice.elems, rl, Function.comp_def] using map_limit_roundtrip _ hl
  · simpa [Slice.elems, rp, Function.comp_def] using map_pricing_roundtrip _ hp

/-! ## C5: postcondition of Create -/

/-- C5, as stated, fails: the desired plan with features `["sso", null]` is created, the
remote answers with id 42 and the fields it was sent, and the tracked plan has the features
`["sso", ""]`, not those of the desired plan. -/
theorem Create_null_feature_counterexample :
    fixtureResource.client.CreatePlan fixtureStd (constServer 201 "plan-42-blank")
        (PlanModelToPlan nullFeaturePlan) World.start =
      (Except.ok { wirePro with Features := Slice.mk ["sso", ""] },
        { sent := [fixtureResource.client.withHeaders
          { Method := "POST", URL := "https://api.quortex.io/1.0/manage/billing/plans",
            Body := some "payload", Header := [] }] }) ∧
    sameWire { wirePro with Features := Slice.mk ["sso", ""] }
      (PlanModelToPlan nullFeaturePlan) ∧
    ∃ S, (fixtureResource.Create fixtureStd (constServer 201 "plan-42-blank") noon
        { Plan := { diags := [], model := nullFeaturePlan } } Response.empty
        World.start).1.State = some S ∧
      S.ID = TfValue.known "42" ∧ ¬ sameData S nullFeaturePlan := by
  refine ⟨rfl, by decide, ?_⟩
  exact ⟨_, rfl, by decide, by decide⟩

/-- C5, amended: for every desired plan `D` whose name, features and limit and pricing fields
are all known values, and every successful creation response `R` that assigns the id `n` and
carries the fields sent for `D`, Create holds as state a tracked plan whose identifier is the
decimal string of `n`, whose name, features, limits and pricing equal those of `D` element for
element, and whose `last_updated` is a non-empty text; the network calls are those of
`CreatePlan`. -/
theorem Create_postcondition (std : GoStd) (srv : Server) (r : planResource) (now : Time)
    (diags : Diagnostics) (D : planResourceModel) (resp : Response) (w w1 : World)
    (R : Plan) (n : Int)
    (hd : HasError (appendDiags resp.Diagnostics diags) = false)
    (hR : r.client.CreatePlan std srv (PlanModelToPlan D) w = (Except.ok R, w1))
    (hn : R.ID = n)
    (hsame : sameWire R (PlanModelToPlan D))
    (hD : D.allKnown = true) :
    ∃ S, r.Create std srv now { Plan := { diags := diags, model := D } } resp w =
        ({ Diagnostics := appendDiags resp.Diagnostics diags, State := some S }, w1) ∧
      S.ID = TfValue.known (Itoa n) ∧ sameData S D ∧ stamped S := by
  refine ⟨PlanToPlanModel now R { D with ID := StringValue (Itoa R.ID) }, ?_, ?_, ?_, ?_⟩
  · simp [planResource.Create, hd, hR, Response.setState]
  · rw [PlanToPlanModel_ID, ← hn]; rfl
  · exact sameData_of_sameWire now R _ D hsame hD
  · exact PlanToPlanModel_stamped now R _

theorem Create_postcondition_witness :
    ∃ S, fixtureResource.Create fixtureStd (constServer 201 "plan-42") noon
        { Plan := { diags := [], model := proPlan } } Response.empty World.start =
        ({ Diagnostics := appendDiags Response.empty.Diagnostics [], State := some S },
          { sent := [fixtureResource.client.withHeaders
            { Method := "POST", URL := "https://api.quortex.io/1.0/manage/billing/plans",
              Body := some "payload", Header := [] }] }) ∧
      S.ID = TfValue.known (Itoa 42) ∧ sameData S proPlan ∧ stamped S :=
  Create_postcondition fixtureStd (constServer 201 "plan-42") fixtureResource noon []
    proPlan Response.empty World.start _ wirePro 42 (by decide) rfl rfl (by decide)
    (by decide)

/-! ## C6: Update reads back -/

/-- C6: for every desired plan `D` with identifier `D.ID`, every successful write response `W`
and every successful read-back response `G`, Update holds as state a tracked plan whose name,
features, limits and pricing are those of `G`, as non-nil sequences of known values, whatever
`W` holds, and whose identifier is `D.ID`, unchanged; its `last_updated` is stamped. -/
theorem Update_reads_back (std : GoStd) (srv : Server) (r : planResource) (now : Time)
    (diags : Diagnostics) (D : planResourceModel) (resp : Response) (w w1 w2 : World)
    (W G : Plan)
    (hd : HasError (appendDiags resp.Diagnostics diags) = false)
    (hW : r.client.UpdatePlan std srv (ValueString D.ID) (PlanModelToPlan D) w =
      (Except.ok W, w1))
    (hG : r.client.GetPlan std srv (ValueString D.ID) w1 = (Except.ok G, w2)) :
    ∃ S, r.Update std srv now { Plan := { diags := diags, model := D } } resp w =
        ({ Diagnostics := appendDiags resp.Diagnostics diags, State := some S }, w2) ∧
      S.ID = D.ID ∧ carries S G ∧ stamped S := by
  refine ⟨PlanToPlanModel now G D, ?_, ?_, ?_, ?_⟩
  · simp [planResource.Update, hd, hW, hG, Response.setState]
  · exact PlanToPlanModel_ID now G D
  · exact PlanToPlanModel_carries now G D
  · exact PlanToPlanModel_stamped now G D

theorem Update_reads_back_witness :
    ∃ S, fixtureResource.Update fixtureStd partialWriteServer noon
        { Plan := { diags := [], model := trackedPro } } Response.empty World.start =
        ({ Diagnostics := appendDiags Response.empty.Diagnostics [], State := some S },
          { sent :=
            [fixtureResource.client.withHeaders
              { Method := "PATCH", URL := "https://api.quortex.io/1.0/manage/billing/plans/42",
                Body := some "payload", Header := [] },
             fixtureResource.client.withHeaders
              { Method := "GET", URL := "https://api.quortex.io/1.0/manage/billing/plans/42",
                Body := none, Header := [] }] }) ∧
      S.ID = trackedPro.ID ∧ carries S wirePro ∧ stamped S :=
  Update_reads_back fixtureStd partialWriteServer fixtureResource noon [] trackedPro
    Response.empty World.start _ _
    { wirePro with Features := Slice.nil, Limits := Slice.nil, Pricing := Slice.nil } wirePro
    (by decide) rfl rfl

/-! ## C7: Read and the identifier -/

/-- C7, as stated, fails: the tracked plan has identifier `42`, the remote answers the read
with a plan carrying no id, and the state produced by Read has identifier `0`, not `42`. -/
theorem Read_identifier_counterexample :
    (fixtureResource.Read fixtureStd (constServer 200 "plan-anon") noon
        { State := { diags := [], model := trackedPro } }
        { Diagnostics := [], State := some trackedPro } World.start).1.State.map
          planResourceModel.ID = some (TfValue.known "0") ∧
    trackedPro.ID = TfValue.known "42" := by
  decide

/-- C7, amended: for every tracked state and every successful remote response `R`, the state
produced by Read has as identifier the decimal string of the id carried by `R` (`0` when `R`
carries none), whatever the identifier was before, and its name, features, limits and pricing
are overwritten with those of `R`. -/
theorem Read_overwrites (std : GoStd) (srv : Server) (r : planResource) (now : Time)
    (diags : Diagnostics) (st : planResourceModel) (resp : Response) (w w1 : World) (R : Plan)
    (hd : HasError (appendDiags resp.Diagnostics diags) = false)
    (hR : r.client.GetPlan std srv (ValueString st.ID) w = (Except.ok R, w1)) :
    ∃ S, r.Read std srv now { State := { diags := diags, model := st } } resp w =
        ({ Diagnostics := appendDiags resp.Diagnostics diags, State := some S }, w1) ∧
      S.ID = TfValue.known (Itoa R.ID) ∧ carries S R := by
  refine ⟨PlanToPlanModel now R { st with ID := StringValue (Itoa R.ID) }, ?_, ?_, ?_⟩
  · simp [planResource.Read, hd, hR, Response.setState]
  · rw [PlanToPlanModel_ID]; rfl
  · exact PlanToPlanModel_carries now R _

theorem Read_overwrites_witness :
    ∃ S, fixtureResource.Read fixtureStd (constServer 200 "plan-42") noon
        { State := { diags := [], model := trackedPro } }
        { Diagnostics := [], State := some trackedPro } World.start =
        ({ Diagnostics := appendDiags [] [], State := some S },
          { sent := [fixtureResource.client.withHeaders
            { Method := "GET", URL := "https://api.quortex.io/1.0/manage/billing/plans/42",
              Body := none, Header := [] }] }) ∧
      S.ID = TfValue.known (Itoa wirePro.ID) ∧ carries S wirePro :=
  Read_overwrites fixtureStd (constServer 200 "plan-42") fixtureResource noon [] trackedPro
    { Diagnostics := [], State := some trackedPro } World.start _ wirePro (by decide) rfl

/-! ## C8: Read twice -/

/-- C8, as stated, fails: two reads of plan 42 in succession against an unchanged remote, the
first at one clock reading and the second at another, hold different states: their
`last_updated` differ. -/
theorem Read_twice_counterexample :
    ∃ S1 S2,
      (fixtureResource.Read fixtureStd (constServer 200 "plan-42") noon
        { State := { diags := [], model := trackedPro } }
        { Diagnostics := [], State := some trackedPro } World.start).1.State = some S1 ∧
      (fixtureResource.Read fixtureStd (constServer 200 "plan-42") midnight
        { State := { diags := [], model := S1 } }
        { Diagnostics := [], State := some S1 }
        (fixtureResource.Read fixtureStd (constServer 200 "plan-42") noon
          { State := { diags := [], model := trackedPro } }
          { Diagnostics := [], State := some trackedPro } World.start).2).1.State = some S2 ∧
      S1.LastUpdated ≠ S2.LastUpdated ∧ S1 ≠ S2 :=
  ⟨_, _, rfl, rfl, by decide, by decide⟩

/-- C8, amended: for every tracked state and every fixed remote response `R`, two reads in
succession, the second from the state held by the first, hold states that agree on every field
except `last_updated`, which after each read is the text of the clock reading of that read;
the two states are identical when the two readings have the same text. -/
theorem Read_twice (std : GoStd) (srv : Server) (r : planResource) (t1 t2 : Time)
    (d1 d2 : Diagnostics) (st : planResourceModel) (resp1 resp2 : Response) (w w1 w2 : World)
    (R : Plan)
    (hd1 : HasError (appendDiags resp1.Diagnostics d1) = false)
    (hd2 : HasError (appendDiags resp2.Diagnostics d2) = false)
    (h1 : r.client.GetPlan std srv (ValueString st.ID) w = (Except.ok R, w1))
    (h2 : r.client.GetPlan std srv (Itoa R.ID) w1 = (Except.ok R, w2)) :
    ∃ S1 S2,
      r.Read std srv t1 { State := { diags := d1, model := st } } resp1 w =
        ({ Diagnostics := appendDiags resp1.Diagnostics d1, State := some S1 }, w1) ∧
      r.Read std srv t2 { State := { diags := d2, model := S1 } } resp2 w1 =
        ({ Diagnostics := appendDiags resp2.Diagnostics d2, State := some S2 }, w2) ∧
      S1.LastUpdated = TfValue.known (formatRFC850 t1) ∧
      S2 = { S1 with LastUpdated := TfValue.known (formatRFC850 t2) } ∧
      (formatRFC850 t1 = formatRFC850 t2 → S2 = S1) := by
  have hid : ValueString (PlanToPlanModel t1 R { st with ID := StringValue (Itoa R.ID) }).ID =
      Itoa R.ID := by
    rw [PlanToPlanModel_ID]; rfl
  refine ⟨PlanToPlanModel t1 R { st with ID := StringValue (Itoa R.ID) },
    PlanToPlanModel t2 R { PlanToPlanModel t1 R { st with ID := StringValue (Itoa R.ID) } with
      ID := StringValue (Itoa R.ID) }, ?_, ?_, ?_, ?_, ?_⟩
  · simp [planResource.Read, hd1, h1, Response.setState]
  · simp [planResource.Read, hd2, hid, h2, Response.setState]
  · rw [PlanToPlanModel_eq]
  · simp [PlanToPlanModel_eq, StringValue]
  · intro ht
    simp [PlanToPlanModel_eq, StringValue, ht]

theorem Read_twice_witness :
    ∃ S1 S2,
      fixtureResource.Read fixtureStd (constServer 200 "plan-42") noon
        { State := { diags := [], model := trackedPro } }
        { Diagnostics := [], State := some trackedPro } World.start =
        ({ Diagnostics := appendDiags [] [], State := some S1 },
          { sent := [fixtureResource.client.withHeaders
            { Method := "GET", URL := "https://api.quortex.io/1.0/manage/billing/plans/42",
              Body := none, Header := [] }] }) ∧
      fixtureResource.Read fixtureStd (constServer 200 "plan-42") midnight
        { State := { diags := [], model := S1 } }
        { Diagnostics := [], State := some trackedPro }
        { sent := [fixtureResource.client.withHeaders
            { Method := "GET", URL := "https://api.quortex.io/1.0/manage/billing/plans/42",
              Body := none, Header := [] }] } =
        ({ Diagnostics := appendDiags [] [], State := some S2 },
          { sent := [fixtureResource.client.withHeaders
            { Method := "GET", URL := "https://api.quortex.io/1.0/manage/billing/plans/42",
              Body := none, Header := [] },
            fixtureResource.client.withHeaders
            { Method := "GET", URL := "https://api.quortex.io/1.0/manage/billing/plans/42",
              Body := none, Header := [] }] }) ∧
      S1.LastUpdated = TfValue.known (formatRFC850 noon) ∧
      S2 = { S1 with LastUpdated := TfValue.known (formatRFC850 midnight) } ∧
      (formatRFC850 noon = formatRFC850 midnight → S2 = S1) :=
  Read_twice fixtureStd (constServer 200 "plan-42") fixtureResource noon midnight [] []
    trackedPro { Diagnostics := [], State := some trackedPro }
    { Diagnostics := [], State := some trackedPro } World.start _ _ wirePro
    (by decide) (by decide) rfl rfl

/-! ## C9: configuration resolution in `Configure` -/

theorem HasError_appendDiag_of_error (ds : Diagnostics) (d : Diagnostic)
    (h : d.severity = Severity.error) : HasError (appendDiag ds d) = true := by
  unfold appendDiag
  split
  · next hmem =>
    simp only [HasError, List.any_eq_true]
    exact ⟨d, hmem, by simp [h]⟩
  · simp [HasError, h]

theorem HasError_appendDiag_mono (ds : Diagnostics) (d : Diagnostic)
    (h : HasError ds = true) : HasError (appendDiag ds d) = true := by
  unfold appendDiag
  split
  · exact h
  · simp only [HasError, List.any_append, Bool.or_eq_true]
    exact Or.inl h

theorem flag_ResourceData (c : Prop) [Decidable c] (resp : ConfigureResponse)
    (root summary detail : String) :
    (if c then resp.addAttributeError root summary detail else resp).ResourceData =
      resp.ResourceData := by
  split <;> rfl

theorem flag_DataSourceData (c : Prop) [Decidable c] (resp : ConfigureResponse)
    (root summary detail : String) :
    (if c then resp.addAttributeError root summary detail else resp).DataSourceData =
      resp.DataSourceData := by
  split <;> rfl

theorem flag_HasError_mono (c : Prop) [Decidable c] (resp : ConfigureResponse)
    (root summary detail : String) (h : HasError resp.Diagnostics = true) :
    HasError (if c then resp.addAttributeError root summary detail else resp).Diagnostics
      = true := by
  split
  · exact HasError_appendDiag_mono _ _ h
  · exact h

theorem flag_HasError_of (c : Prop) [Decidable c] (resp : ConfigureResponse)
    (root summary detail : String) (h : c) :
    HasError (if c then resp.addAttributeError root summary detail else resp).Diagnostics
      = true := by
  rw [if_pos h]
  exact HasError_appendDiag_of_error _ _ rfl

theorem resolveOne_eq (cfg : TfString) (env : String) :
    (if (!cfg.IsNull) = true then ValueString cfg else env) = resolveOne cfg env := by
  cases cfg <;> rfl

/-- The function `Configure` by phases: the diagnostics of decoding, the checks for unknown
values, the checks for missing values on the resolved settings, and the construction. -/
theorem Configure_eq (std : GoStd) (srv : Server) (getenv : String → String)
    (req : ConfigureRequest) (resp : ConfigureResponse) (w : World) :
    administrationProvider.Configure std srv getenv req resp w =
      if HasError (appendDiags resp.Diagnostics req.diags) = true then
        ({ resp with Diagnostics := appendDiags resp.Diagnostics req.diags }, w)
      else if HasError (flagUnknown req.config
          { resp with Diagnostics := appendDiags resp.Diagnostics req.diags }).Diagnostics
          = true then
        (flagUnknown req.config
          { resp with Diagnostics := appendDiags resp.Diagnostics req.diags }, w)
      else if HasError (flagMissing (resolve getenv req.config) (flagUnknown req.config
          { resp with Diagnostics := appendDiags resp.Diagnostics req.diags })).Diagnostics
          = true then
        (flagMissing (resolve getenv req.config) (flagUnknown req.config
          { resp with Diagnostics := appendDiags resp.Diagnostics req.diags }), w)
      else
        connect std srv (resolve getenv req.config)
          (flagMissing (resolve getenv req.config) (flagUnknown req.config
            { resp with Diagnostics := appendDiags resp.Diagnostics req.diags })) w := by
  unfold administrationProvider.Configure
  simp only [resolveOne_eq]
  rfl

theorem flagUnknown_data (config : administrationProviderModel) (resp : ConfigureResponse) :
    (flagUnknown config resp).ResourceData = resp.ResourceData ∧
      (flagUnknown config resp).DataSourceData = resp.DataSourceData := by
  simp only [flagUnknown, flag_ResourceData, flag_DataSourceData, and_self]

theorem flagMissing_data (r : Resolved) (resp : ConfigureResponse) :
    (flagMissing r resp).ResourceData = resp.ResourceData ∧
      (flagMissing r resp).DataSourceData = resp.DataSourceData := by
  simp only [flagMissing, flag_ResourceData, flag_DataSourceData, and_self]

theorem flagMissing_HasError (r : Resolved) (resp : ConfigureResponse) (h : r.anyEmpty) :
    HasError (flagMissing r resp).Diagnostics = true := by
  unfold flagMissing
  rcases h with h | h | h | h
  · exact flag_HasError_mono _ _ _ _ _ (flag_HasError_mono _ _ _ _ _
      (flag_HasError_mono _ _ _ _ _ (flag_HasError_of _ _ _ _ _ h)))
  · exact flag_HasError_mono _ _ _ _ _ (flag_HasError_mono _ _ _ _ _
      (flag_HasError_of _ _ _ _ _ h))
  · exact flag_HasError_mono _ _ _ _ _ (flag_HasError_of _ _ _ _ _ h)
  · exact flag_HasError_of _ _ _ _ _ h

theorem flagUnknown_of_noneUnknown (config : administrationProviderModel)
    (resp : ConfigureResponse) (h : config.noneUnknown = true) :
    flagUnknown config resp = resp := by
  simp only [administrationProviderModel.noneUnknown, Bool.and_eq_true, Bool.not_eq_true',
    ] at h
  obtain ⟨⟨⟨ha, hh⟩, hi⟩, hs⟩ := h
  simp [flagUnknown, ha, hh, hi, hs]

theorem flagMissing_of_not_anyEmpty (r : Resolved) (resp : ConfigureResponse)
    (h : ¬ r.anyEmpty) : flagMissing r resp = resp := by
  simp only [Resolved.anyEmpty, not_or] at h
  obtain ⟨ha, hh, hi, hs⟩ := h
  simp [flagMissing, ha, hh, hi, hs]

/-- C9: in `Configure`, each of auth_server, host, client_id and client_secret resolves to
the explicit configuration value when it is not null and to the value of its environment
variable otherwise. If any resolved value is empty, `Configure` reports an error, hands no
client to the response and makes no network call. If the decoding reported no error, no
value is unknown and no resolved value is empty, the client is constructed by `NewClient`
from exactly the four resolved values. -/
theorem Configure_resolution (std : GoStd) (srv : Server) (getenv : String → String)
    (diags : Diagnostics) (config : administrationProviderModel) (resp : ConfigureResponse)
    (w : World) :
    ((resolve getenv config).anyEmpty →
      HasError (administrationProvider.Configure std srv getenv
          { diags := diags, config := config } resp w).1.Diagnostics = true ∧
        (administrationProvider.Configure std srv getenv
          { diags := diags, config := config } resp w).1.ResourceData = resp.ResourceData ∧
        (administrationProvider.Configure std srv getenv
          { diags := diags, config := config } resp w).1.DataSourceData
          = resp.DataSourceData ∧
        (administrationProvider.Configure std srv getenv
          { diags := diags, config := config } resp w).2 = w) ∧
    (HasError (appendDiags resp.Diagnostics diags) = false → config.noneUnknown = true →
      ¬ (resolve getenv config).anyEmpty →
      administrationProvider.Configure std srv getenv
          { diags := diags, config := config } resp w =
        match NewClient std srv (some (resolveOne config.AuthServer
            (getenv "ADMINISTRATION_AUTH_SERVER")))
          (some (resolveOne config.Host (getenv "ADMINISTRATION_HOST")))
          (resolveOne config.ClientId (getenv "ADMINISTRATION_CLIENT_ID"))
          (resolveOne config.ClientSecret (getenv "ADMINISTRATION_CLIENT_SECRET")) w with
        | (Except.error err, w1) =>
          (ConfigureResponse.addError
            { resp with Diagnostics := appendDiags resp.Diagnostics diags }
            "Unable to Create Administration API Client"
            ("An unexpected error occurred when creating the Administration API client. " ++
             "If the error is not clear, please contact the provider developers.\n\n" ++
             "Administration Client Error: " ++ err), w1)
        | (Except.ok client, w1) =>
          ({ Diagnostics := appendDiags resp.Diagnostics diags,
             DataSourceData := some client, ResourceData := some client }, w1)) := by
  rw [Configure_eq]
  constructor
  · intro hempty
    by_cases h0 : HasError (appendDiags resp.Diagnostics diags) = true
    · simp [h0]
    · by_cases h1 : HasError (flagUnknown config
          { resp with Diagnostics := appendDiags resp.Diagnostics diags }).Diagnostics = true
      · rw [if_neg h0, if_pos h1]
        exact ⟨h1, (flagUnknown_data _ _).1, (flagUnknown_data _ _).2, rfl⟩
      · have h2 := flagMissing_HasError (resolve getenv config) (flagUnknown config
          { resp with Diagnostics := appendDiags resp.Diagnostics diags }) hempty
        rw [if_neg h0, if_neg h1, if_pos h2]
        refine ⟨h2, ?_, ?_, rfl⟩
        · show (flagMissing _ _).ResourceData = _
          rw [(flagMissing_data _ _).1, (flagUnknown_data _ _).1]
        · show (flagMissing _ _).DataSourceData = _
          rw [(flagMissing_data _ _).2, (flagUnknown_data _ _).2]
  · intro h0 hu hne
    simp only [flagUnknown_of_noneUnknown _ _ hu, flagMissing_of_not_anyEmpty _ _ hne, h0,
      Bool.false_eq_true, if_false]
    simp only [connect, resolve]

theorem Configure_resolution_witness :
    HasError (administrationProvider.Configure fixtureStd (constServer 200 "token") fixtureEnv
        { diags := [], config := fixtureConfig } ConfigureResponse.empty
        World.start).1.Diagnostics = true ∧
      (administrationProvider.Configure fixtureStd (constServer 200 "token") fixtureEnv
        { diags := [], config := fixtureConfig } ConfigureResponse.empty
        World.start).1.ResourceData = none ∧
      (administrationProvider.Configure fixtureStd (constServer 200 "token") fixtureEnv
        { diags := [], config := fixtureConfig } ConfigureResponse.empty
        World.start).1.DataSourceData = none ∧
      (administrationProvider.Configure fixtureStd (constServer 200 "token") fixtureEnv
        { diags := [], config := fixtureConfig } ConfigureResponse.empty
        World.start).2 = World.start :=
  (Configure_resolution fixtureStd (constServer 200 "token") fixtureEnv [] fixtureConfig
    ConfigureResponse.empty World.start).1 (by decide)

/-! ## C10: no state precondition in Create, Update and Delete -/

theorem doRequest_world (srv : Server) (c : Client) (req : Request) (w : World) :
    (c.doRequest srv req w).2 = { sent := w.sent ++ [c.withHeaders req] } := by
  unfold Client.doRequest httpDo
  cases h : srv w.sent (c.withHeaders req) with
  | failed err => simp only [h]
  | response s b =>
    cases b with
    | error e => simp only [h]
    | ok body =>
      simp only [h]
      split <;> rfl

theorem GetPlan_world (std : GoStd) (srv : Server) (c : Client) (planID : String) (w : World) :
    ∃ rest, (c.GetPlan std srv planID w).2.sent = w.sent ++ rest := by
  unfold Client.GetPlan
  split
  · exact ⟨[], by simp⟩
  · next req _ =>
    have hw := doRequest_world srv c req w
    split
    · next heq => rw [heq] at hw; exact ⟨_, congrArg World.sent hw⟩
    · next heq =>
      rw [heq] at hw
      split <;> exact ⟨_, congrArg World.sent hw⟩

theorem UpdatePlan_world (std : GoStd) (srv : Server) (c : Client) (planID : String)
    (plan : Plan) (w : World) (rb : String)
    (henc : std.encode plan.toJson = Except.ok rb)
    (hurl : std.urlError (c.HostURL ++ "/1.0/manage/billing/plans/" ++ planID) = none) :
    (c.UpdatePlan std srv planID plan w).2 =
      { sent := w.sent ++ [c.withHeaders
        { Method := "PATCH", URL := c.HostURL ++ "/1.0/manage/billing/plans/" ++ planID,
          Body := some rb, Header := [] }] } := by
  unfold Client.UpdatePlan
  simp only [henc, NewRequest, hurl]
  rw [← doRequest_world srv]
  generalize Client.doRequest srv c _ w = res
  obtain ⟨out, w1⟩ := res
  cases out with
  | error err => rfl
  | ok body =>
    simp only []
    split <;> rfl

theorem CreatePlan_world (std : GoStd) (srv : Server) (c : Client) (plan : Plan) (w : World)
    (rb : String) (henc : std.encode plan.toJson = Except.ok rb)
    (hurl : std.urlError (c.HostURL ++ "/1.0/manage/billing/plans") = none) :
    (c.CreatePlan std srv plan w).2 =
      { sent := w.sent ++ [c.withHeaders
        { Method := "POST", URL := c.HostURL ++ "/1.0/manage/billing/plans",
          Body := some rb, Header := [] }] } := by
  unfold Client.CreatePlan
  simp only [henc, NewRequest, hurl]
  rw [← doRequest_world srv]
  generalize Client.doRequest srv c _ w = res
  obtain ⟨out, w1⟩ := res
  cases out with
  | error err => rfl
  | ok body =>
    simp only []
    split <;> rfl

theorem DeletePlan_world (std : GoStd) (srv : Server) (c : Client) (planID : String)
    (w : World)
    (hurl : std.urlError (c.HostURL ++ "/1.0/manage/billing/plans/" ++ planID) = none) :
    (c.DeletePlan std srv planID w).2 =
      { sent := w.sent ++ [c.withHeaders
        { Method := "DELETE", URL := c.HostURL ++ "/1.0/manage/billing/plans/" ++ planID,
          Body := none, Header := [] }] } := by
  unfold Client.DeletePlan
  simp only [NewRequest, hurl]
  rw [← doRequest_world srv]
  generalize Client.doRequest srv c _ w = res
  obtain ⟨out, w1⟩ := res
  cases out <;> rfl

/-- C10, as stated, fails: Update and Delete on a tracked plan with no identifier each make a
network call, Delete even ends without any diagnostic, and Create on a tracked plan whose
identifier is already assigned makes a network call too. -/
theorem precondition_counterexample :
    ValueString unmanagedPro.ID = "" ∧
    (fixtureResource.Update fixtureStd (constServer 200 "plan-42") noon
      { Plan := { diags := [], model := unmanagedPro } } Response.empty World.start).2.sent
        ≠ [] ∧
    (fixtureResource.Delete fixtureStd (constServer 200 "plan-42")
      { State := { diags := [], model := unmanagedPro } } Response.empty World.start).2.sent
        ≠ [] ∧
    (fixtureResource.Delete fixtureStd (constServer 200 "plan-42")
      { State := { diags := [], model := unmanagedPro } } Response.empty World.start).1
        = Response.empty ∧
    trackedPro.ID = TfValue.known "42" ∧
    (fixtureResource.Create fixtureStd (constServer 200 "plan-42") noon
      { Plan := { diags := [], model := trackedPro } } Response.empty World.start).2.sent
        ≠ [] := by
  decide

/-- C10, amended: Create, Update and Delete check no precondition on the identifier. For
every tracked plan, whatever its identifier (empty or assigned), once the decoding reported
no error, the payload is encoded and the URL parses, Update sends its PATCH request to
`{host}/1.0/manage/billing/plans/{id}` first, Delete sends exactly its DELETE request to that
URL, and Create sends exactly its POST request to `{host}/1.0/manage/billing/plans`; none of
them fails before its network call. -/
theorem operations_check_no_precondition (std : GoStd) (srv : Server) (r : planResource)
    (now : Time) (diags : Diagnostics) (D : planResourceModel) (resp : Response) (w : World)
    (rb : String)
    (hd : HasError (appendDiags resp.Diagnostics diags) = false)
    (henc : std.encode (PlanModelToPlan D).toJson = Except.ok rb)
    (hurl : std.urlError (r.client.HostURL ++ "/1.0/manage/billing/plans/" ++
      ValueString D.ID) = none)
    (hurl1 : std.urlError (r.client.HostURL ++ "/1.0/manage/billing/plans") = none) :
    (∃ rest, (r.Update std srv now { Plan := { diags := diags, model := D } } resp w).2.sent =
      w.sent ++ r.client.withHeaders
        { Method := "PATCH",
          URL := r.client.HostURL ++ "/1.0/manage/billing/plans/" ++ ValueString D.ID,
          Body := some rb, Header := [] } :: rest) ∧
    (r.Delete std srv { State := { diags := diags, model := D } } resp w).2.sent =
      w.sent ++ [r.client.withHeaders
        { Method := "DELETE",
          URL := r.client.HostURL ++ "/1.0/manage/billing/plans/" ++ ValueString D.ID,
          Body := none, Header := [] }] ∧
    (r.Create std srv now { Plan := { diags := diags, model := D } } resp w).2.sent =
      w.sent ++ [r.client.withHeaders
        { Method := "POST", URL := r.client.HostURL ++ "/1.0/manage/billing/plans",
          Body := some rb, Header := [] }] := by
  refine ⟨?_, ?_, ?_⟩
  · have hU := UpdatePlan_world std srv r.client (ValueString D.ID) (PlanModelToPlan D) w rb
      henc hurl
    unfold planResource.Update
    simp only [hd, Bool.false_eq_true, if_false]
    split
    · next heq =>
      rw [heq] at hU
      simp only at hU
      subst hU
      exact ⟨[], rfl⟩
    · next w1 heq =>
      rw [heq] at hU
      simp only at hU
      subst hU
      obtain ⟨rest, hG⟩ := GetPlan_world std srv r.client (ValueString D.ID)
        { sent := w.sent ++ [r.client.withHeaders
          { Method := "PATCH",
            URL := r.client.HostURL ++ "/1.0/manage/billing/plans/" ++ ValueString D.ID,
            Body := some rb, Header := [] }] }
      split
      · next heq2 =>
        rw [heq2] at hG
        simp only [List.append_assoc, List.singleton_append] at hG
        exact ⟨rest, hG⟩
      · next heq2 =>
        rw [heq2] at hG
        simp only [List.append_assoc, List.singleton_append] at hG
        exact ⟨rest, hG⟩
  · have hDel := DeletePlan_world std srv r.client (ValueString D.ID) w hurl
    unfold planResource.Delete
    simp only [hd, Bool.false_eq_true, if_false]
    split
    · next heq => rw [heq] at hDel; simp only at hDel; subst hDel; rfl
    · next heq => rw [heq] at hDel; simp only at hDel; subst hDel; rfl
  · have hC := CreatePlan_world std srv r.client (PlanModelToPlan D) w rb henc hurl1
    unfold planResource.Create
    simp only [hd, Bool.false_eq_true, if_false]
    split
    · next heq => rw [heq] at hC; simp only at hC; subst hC; rfl
    · next heq => rw [heq] at hC; simp only at hC; subst hC; rfl

theorem operations_check_no_precondition_witness :
    (∃ rest, (fixtureResource.Update fixtureStd (constServer 200 "plan-42") noon
        { Plan := { diags := [], model := unmanagedPro } } Response.empty World.start).2.sent =
      World.start.sent ++ fixtureResource.client.withHeaders
        { Method := "PATCH",
          URL := fixtureResource.client.HostURL ++ "/1.0/manage/billing/plans/" ++
            ValueString unmanagedPro.ID,
          Body := some "payload", Header := [] } :: rest) ∧
    (fixtureResource.Delete fixtureStd (constServer 200 "plan-42")
        { State := { diags := [], model := unmanagedPro } } Response.empty World.start).2.sent =
      World.start.sent ++ [fixtureResource.client.withHeaders
        { Method := "DELETE",
          URL := fixtureResource.client.HostURL ++ "/1.0/manage/billing/plans/" ++
            ValueString unmanagedPro.ID,
          Body := none, Header := [] }] ∧
    (fixtureResource.Create fixtureStd (constServer 200 "plan-42") noon
        { Plan := { diags := [], model := unmanagedPro } } Response.empty World.start).2.sent =
      World.start.sent ++ [fixtureResource.client.withHeaders
        { Method := "POST",
          URL := fixtureResource.client.HostURL ++ "/1.0/manage/billing/plans",
          Body := some "payload", Header := [] }] :=
  operations_check_no_precondition fixtureStd (constServer 200 "plan-42") fixtureResource noon
    [] unmanagedPro Response.empty World.start "payload" (by decide) rfl rfl rfl

/-! ## Lemmas on failures -/

theorem appendDiag_error_of_no_error (ds : Diagnostics) (d : Diagnostic)
    (hd : HasError ds = false) (h : d.severity = Severity.error) :
    appendDiag ds d = ds ++ [d] := by
  unfold appendDiag
  split
  · next hmem =>
    have herr : HasError ds = true := by
      simp only [HasError, List.any_eq_true]
      exact ⟨d, hmem, by simp [h]⟩
    rw [hd] at herr
    exact absurd herr (by decide)
  · rfl

theorem doRequest_non_success (srv : Server) (c : Client) (req : Request) (w : World)
    (s : Int) (b : String)
    (hresp : srv w.sent (c.withHeaders req) = HTTPResult.response s (Except.ok b))
    (hs : ¬ (s = 200 ∨ s = 201 ∨ s = 204)) :
    c.doRequest srv req w =
      (Except.error (statusError s b), { sent := w.sent ++ [c.withHeaders req] }) := by
  have hne : s ≠ 200 ∧ s ≠ 201 ∧ s ≠ 204 := by omega
  simp [Client.doRequest, httpDo, hresp, hne]

/-! ## C11: the read of a plan the remote does not have -/

/-- C11, as stated, fails: against a remote answering 404 to the read of plan 999, `GetPlan`
fails with `status: 404, body: not found`, the error that `doRequest` builds for every status
it does not take as a success, built for 500 in the same way; and Read reports the 404 and
the 500 under the same summary and holds the same state after both. There is no separate
not-found error. -/
theorem GetPlan_404_counterexample :
    (fixtureResource.client.GetPlan fixtureStd (constServer 404 "not found") "999"
        World.start).1 = Except.error (statusError 404 "not found") ∧
    (fixtureResource.client.GetPlan fixtureStd (constServer 500 "not found") "999"
        World.start).1 = Except.error (statusError 500 "not found") ∧
    headlines (fixtureResource.Read fixtureStd (constServer 404 "not found") noon
        { State := { diags := [], model := { trackedPro with ID := TfValue.known "999" } } }
        { Diagnostics := [], State := some trackedPro } World.start).1.Diagnostics =
      headlines (fixtureResource.Read fixtureStd (constServer 500 "not found") noon
        { State := { diags := [], model := { trackedPro with ID := TfValue.known "999" } } }
        { Diagnostics := [], State := some trackedPro } World.start).1.Diagnostics ∧
    (fixtureResource.Read fixtureStd (constServer 404 "not found") noon
        { State := { diags := [], model := { trackedPro with ID := TfValue.known "999" } } }
        { Diagnostics := [], State := some trackedPro } World.start).1.State =
      (fixtureResource.Read fixtureStd (constServer 500 "not found") noon
        { State := { diags := [], model := { trackedPro with ID := TfValue.known "999" } } }
        { Diagnostics := [], State := some trackedPro } World.start).1.State :=
  ⟨rfl, rfl, by decide, by decide⟩

/-- C11, amended: for every identifier, when the remote answers the read request with a
status that is not 200, 201 or 204 (404 and 500 alike) and a body, `GetPlan` fails with the
error whose text is `status: `, the status in decimal, `, body: ` and the body, after one
network call; Read reports it as one error diagnostic with the summary
`Error Reading Administration Plan`, whose detail names the identifier and ends with that
text, and leaves the state of the response as it was. -/
theorem GetPlan_non_success (std : GoStd) (srv : Server) (r : planResource) (now : Time)
    (diags : Diagnostics) (st : planResourceModel) (resp : Response) (w : World)
    (s : Int) (b : String)
    (hd : HasError (appendDiags resp.Diagnostics diags) = false)
    (hurl : std.urlError (r.client.HostURL ++ "/1.0/manage/billing/plans/" ++
      ValueString st.ID) = none)
    (hresp : srv w.sent (r.client.withHeaders
      { Method := "GET",
        URL := r.client.HostURL ++ "/1.0/manage/billing/plans/" ++ ValueString st.ID,
        Body := none, Header := [] }) = HTTPResult.response s (Except.ok b))
    (hs : ¬ (s = 200 ∨ s = 201 ∨ s = 204)) :
    r.client.GetPlan std srv (ValueString st.ID) w =
      (Except.error ("status: " ++ Itoa s ++ ", body: " ++ b),
        { sent := w.sent ++ [r.client.withHeaders
          { Method := "GET",
            URL := r.client.HostURL ++ "/1.0/manage/billing/plans/" ++ ValueString st.ID,
            Body := none, Header := [] }] }) ∧
    r.Read std srv now { State := { diags := diags, model := st } } resp w =
      ({ Diagnostics := appendDiags resp.Diagnostics diags ++
          [errorDiag "Error Reading Administration Plan"
            ("Could not read Administration plan ID " ++ ValueString st.ID ++ ": " ++
              ("status: " ++ Itoa s ++ ", body: " ++ b))],
         State := resp.State },
        { sent := w.sent ++ [r.client.withHeaders
          { Method := "GET",
            URL := r.client.HostURL ++ "/1.0/manage/billing/plans/" ++ ValueString st.ID,
            Body := none, Header := [] }] }) := by
  have hG : r.client.GetPlan std srv (ValueString st.ID) w =
      (Except.error (statusError s b),
        { sent := w.sent ++ [r.client.withHeaders
          { Method := "GET",
            URL := r.client.HostURL ++ "/1.0/manage/billing/plans/" ++ ValueString st.ID,
            Body := none, Header := [] }] }) := by
    unfold Client.GetPlan
    simp only [NewRequest, hurl]
    rw [doRequest_non_success srv r.client _ w s b hresp hs]
  refine ⟨hG, ?_⟩
  unfold planResource.Read
  simp only [hd, Bool.false_eq_true, if_false, hG, Response.addError, AddError]
  rw [appendDiag_error_of_no_error _ _ hd rfl]
  rfl

theorem GetPlan_non_success_witness :
    fixtureResource.client.GetPlan fixtureStd (constServer 404 "not found")
        (ValueString (TfValue.known "999")) World.start =
      (Except.error ("status: " ++ Itoa 404 ++ ", body: " ++ "not found"),
        { sent := World.start.sent ++ [fixtureResource.client.withHeaders
          { Method := "GET",
            URL := fixtureResource.client.HostURL ++ "/1.0/manage/billing/plans/" ++
              ValueString (TfValue.known "999"),
            Body := none, Header := [] }] }) :=
  (GetPlan_non_success fixtureStd (constServer 404 "not found") fixtureResource noon []
    { trackedPro with ID := TfValue.known "999" }
    { Diagnostics := [], State := some trackedPro } World.start 404 "not found"
    (by decide) rfl rfl (by decide)).1

/-! ## C12: import -/

/-- C12, as stated, fails: the import of `042` against a remote answering with the plan of id
42 holds a tracked plan with identifier `42`, and the import of `42` against a remote whose
answer carries no id holds one with identifier `0`; in both the identifier is taken from the
response, not from the supplied id. -/
theorem Import_identifier_counterexample :
    (fixtureResource.Import fixtureStd (constServer 200 "plan-42") noon "042"
        World.start).1.State.map planResourceModel.ID = some (TfValue.known "42") ∧
    (fixtureResource.Import fixtureStd (constServer 200 "plan-anon") noon "42"
        World.start).1.State.map planResourceModel.ID = some (TfValue.known "0") := by
  decide

/-- C12, amended: for every id string and every successful remote response `R` to the read of
that id, the import (ImportState followed by the refresh Read) holds a tracked plan whose
identifier is the decimal string of the id carried by `R` (`0` when `R` carries none), the
supplied id having served for the read request, and whose name, features, limits and pricing
are those of `R`. -/
theorem Import_adopts_response (std : GoStd) (srv : Server) (r : planResource) (now : Time)
    (id : String) (w w1 : World) (R : Plan)
    (hR : r.client.GetPlan std srv id w = (Except.ok R, w1)) :
    ∃ S, r.Import std srv now id w = ({ Diagnostics := [], State := some S }, w1) ∧
      S.ID = TfValue.known (Itoa R.ID) ∧ carries S R := by
  refine ⟨PlanToPlanModel now R
    { emptyModel with ID := StringValue (Itoa R.ID) }, ?_, ?_, ?_⟩
  · have hid : ValueString (StringValue id) = id := rfl
    have hnil : appendDiags ([] : Diagnostics) [] = [] := rfl
    have hno : HasError ([] : Diagnostics) = false := rfl
    simp [planResource.Import, planResource.ImportState, ImportStatePassthroughID,
      Response.setID, Response.empty, planResource.Read, hid, hnil, hno, hR,
      Response.setState]
  · rw [PlanToPlanModel_ID]; rfl
  · exact PlanToPlanModel_carries now R _

theorem Import_adopts_response_witness :
    ∃ S, fixtureResource.Import fixtureStd (constServer 200 "plan-42") noon "42" World.start =
        ({ Diagnostics := [], State := some S },
          { sent := [fixtureResource.client.withHeaders
            { Method := "GET", URL := "https://api.quortex.io/1.0/manage/billing/plans/42",
              Body := none, Header := [] }] }) ∧
      S.ID = TfValue.known (Itoa wirePro.ID) ∧ carries S wirePro :=
  Import_adopts_response fixtureStd (constServer 200 "plan-42") fixtureResource noon "42"
    World.start _ wirePro rfl

/-! ## C13: failure of Create -/

/-- C13: for every desired plan, when the remote creation call fails with an error, Create
writes no state (the response holds the state it held before, none for a resource not yet
tracked, so no identifier and no `last_updated` are recorded) and reports one error
diagnostic, `Error creating plan`, whose detail ends with the text of that error unchanged;
when the failure is a response with a status other than 200, 201 and 204, that text is
`status: `, the status in decimal, `, body: ` and the body of the response. -/
theorem Create_failure_atomic (std : GoStd) (srv : Server) (r : planResource) (now : Time)
    (diags : Diagnostics) (D : planResourceModel) (resp : Response) (w w1 : World)
    (err : String)
    (hd : HasError (appendDiags resp.Diagnostics diags) = false)
    (hfail : r.client.CreatePlan std srv (PlanModelToPlan D) w = (Except.error err, w1)) :
    r.Create std srv now { Plan := { diags := diags, model := D } } resp w =
      ({ Diagnostics := appendDiags resp.Diagnostics diags ++
          [errorDiag "Error creating plan" ("Could not create plan, unexpected error: " ++ err)],
         State := resp.State }, w1) ∧
    (∀ (rb : String) (s : Int) (b : String),
      std.encode (PlanModelToPlan D).toJson = Except.ok rb →
      std.urlError (r.client.HostURL ++ "/1.0/manage/billing/plans") = none →
      srv w.sent (r.client.withHeaders
        { Method := "POST", URL := r.client.HostURL ++ "/1.0/manage/billing/plans",
          Body := some rb, Header := [] }) = HTTPResult.response s (Except.ok b) →
      ¬ (s = 200 ∨ s = 201 ∨ s = 204) →
      err = "status: " ++ Itoa s ++ ", body: " ++ b) := by
  constructor
  · unfold planResource.Create
    simp only [hd, Bool.false_eq_true, if_false, hfail, Response.addError, AddError]
    rw [appendDiag_error_of_no_error _ _ hd rfl]
    rfl
  · intro rb s b henc hurl hresp hs
    have hC : r.client.CreatePlan std srv (PlanModelToPlan D) w =
        (Except.error (statusError s b),
          { sent := w.sent ++ [r.client.withHeaders
            { Method := "POST", URL := r.client.HostURL ++ "/1.0/manage/billing/plans",
              Body := some rb, Header := [] }] }) := by
      unfold Client.CreatePlan
      simp only [henc, NewRequest, hurl]
      rw [doRequest_non_success srv r.client _ w s b hresp hs]
    rw [hC] at hfail
    injection hfail with h1 _
    injection h1 with h2
    rw [← h2]
    rfl

theorem Create_failure_atomic_witness :
    fixtureResource.Create fixtureStd downServer noon
        { Plan := { diags := [], model := proPlan } } Response.empty World.start =
      ({ Diagnostics := appendDiags Response.empty.Diagnostics [] ++
          [errorDiag "Error creating plan" ("Could not create plan, unexpected error: " ++
            "status: 500, body: \x7b\"error\":\"db down\"\x7d")],
         State := Response.empty.State },
        { sent := [fixtureResource.client.withHeaders
          { Method := "POST", URL := "https://api.quortex.io/1.0/manage/billing/plans",
            Body := some "payload", Header := [] }] }) :=
  (Create_failure_atomic fixtureStd downServer fixtureResource noon [] proPlan Response.empty
    World.start _ "status: 500, body: \x7b\"error\":\"db down\"\x7d" (by decide) rfl).1

end Administration
